import Mathlib

/-!
Verification of the NeoGuide real-time intubation guidance pipeline.

The development shallowly embeds the three pipeline modules:
* `geminiVision.js` — recovery parsing of the raw model text, and the
  normalization rules (no-airway blanking, confidence gate, canonical
  depth lookup, esophagus danger escalation);
* `Dashboard.jsx` — history window and majority-vote stabilization;
* `voiceAlerts.js` — the alert transition rules and the audio scheduler
  (queue, cache, busy flag, urgent preemption) as a step machine.

JavaScript numbers are modelled as exact rationals, JS objects coming out
of `JSON.parse` as an inductive `Jv` value, and record fields that may be
absent (`undefined`) as `Option`.  A JS value read only for truthiness is
modelled as `Bool` via the `truthy` function.  Stateful asynchronous code
is modelled by explicit state passing: each `async` function is split at
its `await` points into a synchronous step function plus resumption steps
driven by the completion events (synthesis resolved / rejected, playback
ended); a paused HTML audio element never fires its `ended` event, so a
preempted playback's continuation has no resumption step.
-/

/-! ## Generic stable descending sort (JS `Array.prototype.sort` with a
numeric comparator is stable, so its output is the unique stable
descending order). -/

def insertDesc {α β : Type} [LinearOrder β] (key : α → β) (x : α) :
    List α → List α
  | [] => [x]
  | y :: ys => if key y ≤ key x then x :: y :: ys else y :: insertDesc key x ys

def sortDesc {α β : Type} [LinearOrder β] (key : α → β) (l : List α) : List α :=
  l.foldr (insertDesc key) []

def firstMax {α β : Type} [LinearOrder β] (key : α → β) : List α → Option α
  | [] => none
  | x :: xs =>
    match firstMax key xs with
    | none => some x
    | some y => if key y ≤ key x then some x else some y

/-! ## Data model (`AnalysisRecord` fields read by the pipeline).

`LandmarkObs` is one landmark observation; a confidence of `none` models a
value whose numeric coercion is NaN (comparisons with it are false in JS).
-/

structure LandmarkObs where
  visible : Bool
  confidence : Option Rat
deriving DecidableEq, Repr

structure Landmarks where
  epiglottis : Option LandmarkObs
  vocal_cords : Option LandmarkObs
  tracheal_rings : Option LandmarkObs
  carina : Option LandmarkObs
  esophagus : Option LandmarkObs
  glottis : Option LandmarkObs
deriving DecidableEq, Repr

/-- Fields of the parsed `data` object that the pipeline reads or writes.
Every field is optional because the parsed JSON may lack any of them.  The
`success` field records the truthiness of a `success` key carried by the
parsed object (the final spread `{success:true, ...data, ...}` lets such a
key override the literal `true`). -/
structure PartialRecord where
  identified_as : Option String
  landmarks : Option Landmarks
  depth_zone : Option String
  safety_status : Option String
  guidance_message : Option String
  estimated_depth_cm : Option Rat
  image_quality : Option String
  success : Option Bool
deriving DecidableEq, Repr

def emptyPartial : PartialRecord :=
  { identified_as := none, landmarks := none, depth_zone := none,
    safety_status := none, guidance_message := none,
    estimated_depth_cm := none, image_quality := none, success := none }

/-! ## Result normalization (`analyzeFrame`, geminiVision.js lines 169-200). -/

def blankObs : LandmarkObs := { visible := false, confidence := some 0 }

/-- Safety net: if no airway visible, blank all airway landmarks but keep
the esophagus observation (`esophagusResult || blank`). -/
def noAirwayBlank (d : PartialRecord) : PartialRecord :=
  if d.image_quality = some "no_airway_visible" then
    { d with
        landmarks := some
          { epiglottis := some blankObs, vocal_cords := some blankObs,
            tracheal_rings := some blankObs, carina := some blankObs,
            glottis := some blankObs,
            esophagus := some ((d.landmarks.bind (·.esophagus)).getD blankObs) },
        depth_zone := some "unknown",
        safety_status := some "safe",
        estimated_depth_cm := some 0 }
  else d

/-- The confidence threshold 0.3, written in reduced constructor form so
that the kernel can evaluate comparisons with it. -/
def ratPt3 : Rat := ⟨3, 10, by norm_num, by norm_num⟩

/-- The rational 0.1 in reduced constructor form. -/
def ratPt1 : Rat := ⟨1, 10, by norm_num, by norm_num⟩

/-- The rational 0.5 in reduced constructor form. -/
def ratHalf : Rat := ⟨1, 2, by norm_num, by norm_num⟩

/-- Confidence gate on one observation: `if (confidence < 0.3) visible = false`.
A missing/NaN confidence compares false, so the gate does not fire. -/
def gateObs (o : LandmarkObs) : LandmarkObs :=
  match o.confidence with
  | some q => if q < ratPt3 then { o with visible := false } else o
  | none => o

/-- Filter out very low-confidence detections over every present landmark
key (the loop over `Object.keys(data.landmarks)`). -/
def confidenceGate (d : PartialRecord) : PartialRecord :=
  match d.landmarks with
  | none => d
  | some lm =>
    { d with
        landmarks := some
          { epiglottis := lm.epiglottis.map gateObs,
            vocal_cords := lm.vocal_cords.map gateObs,
            tracheal_rings := lm.tracheal_rings.map gateObs,
            carina := lm.carina.map gateObs,
            esophagus := lm.esophagus.map gateObs,
            glottis := lm.glottis.map gateObs } }

/-- The fixed neonatal zone-to-depth table `ZONE_DEPTH_CM`. -/
def ZONE_DEPTH_CM (z : String) : Option Rat :=
  if z = "pre_glottic" then some 0
  else if z = "glottic" then some (2 / 10)
  else if z = "subglottic" then some (8 / 10)
  else if z = "tracheal" then some 2
  else if z = "carinal" then some (7 / 2)
  else if z = "bronchial" then some (9 / 2)
  else if z = "unknown" then some 0
  else none

/-- Override `estimated_depth_cm` with the zone-derived value
(`ZONE_DEPTH_CM[data.depth_zone] ?? 0`). -/
def depthLookup (d : PartialRecord) : PartialRecord :=
  { d with estimated_depth_cm := some ((d.depth_zone.bind ZONE_DEPTH_CM).getD 0) }

def esophagusVisible (d : PartialRecord) : Bool :=
  ((d.landmarks.bind (·.esophagus)).map (·.visible)).getD false

/-- Esophagus danger escalation; applies regardless of `image_quality`. -/
def esophagusEscalation (d : PartialRecord) : PartialRecord :=
  if esophagusVisible d then
    { d with
        safety_status := some "danger",
        guidance_message :=
          some "ESOPHAGEAL INTUBATION DETECTED — withdraw tube immediately and reposition.",
        depth_zone := some "unknown" }
  else d

/-- The four normalization rules of `analyzeFrame`, in source order. -/
def normalizeRecord (d : PartialRecord) : PartialRecord :=
  esophagusEscalation (depthLookup (confidenceGate (noAirwayBlank d)))

/-! ## JSON values and `JSON.parse` (used by recovery tiers 1-3).

`Jv` is the value space of `JSON.parse`.  Objects carry their fields in
insertion order with duplicate keys collapsed to the last value, as
`JSON.parse` does. -/

inductive Jv where
  | null : Jv
  | bool : Bool → Jv
  | num : Rat → Jv
  | str : String → Jv
  | arr : List Jv → Jv
  | obj : List (String × Jv) → Jv

/-- JS truthiness of a parsed value. -/
def truthy : Jv → Bool
  | Jv.null => false
  | Jv.bool b => b
  | Jv.num q => !(q == 0)
  | Jv.str s => !(s == "")
  | Jv.arr _ => true
  | Jv.obj _ => true

def lbraceC : Char := Char.ofNat 123

def rbraceC : Char := Char.ofNat 125

def lbrackC : Char := Char.ofNat 91

def rbrackC : Char := Char.ofNat 93

def quoteC : Char := Char.ofNat 34

def bslashC : Char := Char.ofNat 92

def commaC : Char := Char.ofNat 44

def colonC : Char := Char.ofNat 58

def aposC : Char := Char.ofNat 39

/-- JSON whitespace (space, tab, line feed, carriage return). -/
def isWsJson (c : Char) : Bool :=
  c = Char.ofNat 32 || c = Char.ofNat 9 || c = Char.ofNat 10 || c = Char.ofNat 13

def skipWs : List Char → List Char
  | [] => []
  | c :: rest => if isWsJson c then skipWs rest else c :: rest

/-- Set a key on an object field list: keep the first-insertion position,
overwrite the value (the `JSON.parse` duplicate-key rule). -/
def setField : List (String × Jv) → String → Jv → List (String × Jv)
  | [], k, v => [(k, v)]
  | (k', v') :: fs, k, v =>
    if k' = k then (k', v) :: fs else (k', v') :: setField fs k v

/-- Drop a literal character sequence from the front of the input. -/
def dropLit : List Char → List Char → Option (List Char)
  | [], cs => some cs
  | _ :: _, [] => none
  | p :: ps, c :: cs => if c = p then dropLit ps cs else none

def hexVal (c : Char) : Option Nat :=
  if 48 ≤ c.toNat && c.toNat ≤ 57 then some (c.toNat - 48)
  else if 97 ≤ c.toNat && c.toNat ≤ 102 then some (c.toNat - 87)
  else if 65 ≤ c.toNat && c.toNat ≤ 70 then some (c.toNat - 55)
  else none

/-- Parse the body of a JSON string literal (after the opening quote). -/
def parseStringChars : List Char → Option (List Char × List Char)
  | [] => none
  | c :: rest =>
    if c = quoteC then some ([], rest)
    else if c = bslashC then
      match rest with
      | [] => none
      | e :: rest2 =>
        if e = quoteC then (parseStringChars rest2).map (fun p => (quoteC :: p.1, p.2))
        else if e = bslashC then (parseStringChars rest2).map (fun p => (bslashC :: p.1, p.2))
        else if e = '/' then (parseStringChars rest2).map (fun p => ('/' :: p.1, p.2))
        else if e = 'b' then (parseStringChars rest2).map (fun p => (Char.ofNat 8 :: p.1, p.2))
        else if e = 'f' then (parseStringChars rest2).map (fun p => (Char.ofNat 12 :: p.1, p.2))
        else if e = 'n' then (parseStringChars rest2).map (fun p => (Char.ofNat 10 :: p.1, p.2))
        else if e = 'r' then (parseStringChars rest2).map (fun p => (Char.ofNat 13 :: p.1, p.2))
        else if e = 't' then (parseStringChars rest2).map (fun p => (Char.ofNat 9 :: p.1, p.2))
        else if e = 'u' then
          match rest2 with
          | h1 :: h2 :: h3 :: h4 :: rest3 =>
            match hexVal h1, hexVal h2, hexVal h3, hexVal h4 with
            | some a, some b, some c3, some d =>
              (parseStringChars rest3).map
                (fun p => (Char.ofNat (((a * 16 + b) * 16 + c3) * 16 + d) :: p.1, p.2))
            | _, _, _, _ => none
          | _ => none
        else none
    else if c.toNat < 32 then none
    else (parseStringChars rest).map (fun p => (c :: p.1, p.2))

def digitsVal (ds : List Char) : Nat :=
  ds.foldl (fun n c => n * 10 + (c.toNat - 48)) 0

def isDigitC (c : Char) : Bool := 48 ≤ c.toNat && c.toNat ≤ 57

/-- Parse a JSON number literal into an exact rational. -/
def parseNumberJv (cs : List Char) : Option (Jv × List Char) :=
  let sgn := match cs with
    | c :: rest => if c = Char.ofNat 45 then (true, rest) else (false, cs)
    | [] => (false, cs)
  let neg := sgn.1
  let cs1 := sgn.2
  let intDs := cs1.takeWhile isDigitC
  let cs2 := cs1.drop intDs.length
  match intDs with
  | [] => none
  | d0 :: drest =>
    if d0 = Char.ofNat 48 && !drest.isEmpty then none
    else
      let fracStep : Option (List Char × List Char) :=
        match cs2 with
        | c :: rest =>
          if c = '.' then
            let fds := rest.takeWhile isDigitC
            if fds.isEmpty then none else some (fds, rest.drop fds.length)
          else some ([], cs2)
        | [] => some ([], cs2)
      match fracStep with
      | none => none
      | some (fracDs, cs3) =>
        let expStep : Option (Bool × List Char × List Char) :=
          match cs3 with
          | c :: rest =>
            if c = 'e' || c = 'E' then
              let se := match rest with
                | c2 :: r2 =>
                  if c2 = Char.ofNat 45 then (true, r2)
                  else if c2 = Char.ofNat 43 then (false, r2)
                  else (false, rest)
                | [] => (false, rest)
              let eds := se.2.takeWhile isDigitC
              if eds.isEmpty then none else some (se.1, eds, se.2.drop eds.length)
            else some (false, [], cs3)
          | [] => some (false, [], cs3)
        match expStep with
        | none => none
        | some (eneg, expDs, cs4) =>
          let mant : Rat :=
            if fracDs.isEmpty then ((digitsVal intDs : Int) : Rat)
            else (digitsVal (intDs ++ fracDs) : Rat) / ((10 : Rat) ^ fracDs.length)
          let scaled : Rat :=
            if expDs.isEmpty then mant
            else if eneg then mant / ((10 : Rat) ^ digitsVal expDs)
            else mant * ((10 : Rat) ^ digitsVal expDs)
          some (Jv.num (if neg then -scaled else scaled), cs4)

mutual

def parseJsonValue (fuel : Nat) (cs : List Char) : Option (Jv × List Char) :=
  match fuel with
  | 0 => none
  | Nat.succ f =>
    match dropLit ("null".toList) cs with
    | some rest => some (Jv.null, rest)
    | none =>
      match dropLit ("true".toList) cs with
      | some rest => some (Jv.bool true, rest)
      | none =>
        match dropLit ("false".toList) cs with
        | some rest => some (Jv.bool false, rest)
        | none =>
          match cs with
          | [] => none
          | c :: rest =>
            if c = quoteC then
              (parseStringChars rest).map (fun p => (Jv.str (String.mk p.1), p.2))
            else if c = lbrackC then parseArrayElems f (skipWs rest)
            else if c = lbraceC then parseObjMembers f (skipWs rest)
            else parseNumberJv cs

def parseArrayElems (fuel : Nat) (cs : List Char) : Option (Jv × List Char) :=
  match fuel with
  | 0 => none
  | Nat.succ f =>
    match cs with
    | [] => none
    | c :: rest =>
      if c = rbrackC then some (Jv.arr [], rest)
      else parseArrayTail f [] cs

def parseArrayTail (fuel : Nat) (acc : List Jv) (cs : List Char) :
    Option (Jv × List Char) :=
  match fuel with
  | 0 => none
  | Nat.succ f =>
    match parseJsonValue f (skipWs cs) with
    | none => none
    | some (v, rest) =>
      match skipWs rest with
      | c :: rest2 =>
        if c = commaC then parseArrayTail f (v :: acc) rest2
        else if c = rbrackC then some (Jv.arr (v :: acc).reverse, rest2)
        else none
      | [] => none

def parseObjMembers (fuel : Nat) (cs : List Char) : Option (Jv × List Char) :=
  match fuel with
  | 0 => none
  | Nat.succ f =>
    match cs with
    | [] => none
    | c :: rest =>
      if c = rbraceC then some (Jv.obj [], rest)
      else parseObjTail f [] cs

def parseObjTail (fuel : Nat) (acc : List (String × Jv)) (cs : List Char) :
    Option (Jv × List Char) :=
  match fuel with
  | 0 => none
  | Nat.succ f =>
    match skipWs cs with
    | [] => none
    | c :: rest =>
      if c = quoteC then
        match parseStringChars rest with
        | none => none
        | some (kcs, r1) =>
          match skipWs r1 with
          | c2 :: r2 =>
            if c2 = colonC then
              match parseJsonValue f (skipWs r2) with
              | none => none
              | some (v, r3) =>
                match skipWs r3 with
                | c3 :: r4 =>
                  if c3 = commaC then parseObjTail f (setField acc (String.mk kcs) v) r4
                  else if c3 = rbraceC then
                    some (Jv.obj (setField acc (String.mk kcs) v), r4)
                  else none
                | [] => none
            else none
          | [] => none
      else none

end

/-- The model of `JSON.parse` over a character list: leading and trailing
whitespace allowed, full input must be consumed. -/
def jsonParseChars (cs : List Char) : Option Jv :=
  match parseJsonValue (2 * cs.length + 8) (skipWs cs) with
  | some (v, rest) => if (skipWs rest).isEmpty then some v else none
  | none => none

def jsonParse (s : String) : Option Jv := jsonParseChars s.toList

/-! ## Response cleaning and the four recovery tiers of `analyzeFrame`. -/

/-- Delete every non-overlapping occurrence of a pattern, scanning left to
right (the behavior of `String.replace pat ""`).  Structural recursion on
a character budget so the kernel can evaluate it; the budget of one per
input character always suffices since every step consumes at least one. -/
def removePatAux (pat : List Char) : Nat → List Char → List Char
  | 0, cs => cs
  | _, [] => []
  | Nat.succ f, c :: rest =>
    match dropLit pat (c :: rest) with
    | some _ => removePatAux pat f (rest.drop (pat.length - 1))
    | none => c :: removePatAux pat f rest

def removePat (pat : List Char) (cs : List Char) : List Char :=
  removePatAux pat cs.length cs

def trimChars (cs : List Char) : List Char :=
  ((cs.dropWhile Char.isWhitespace).reverse.dropWhile Char.isWhitespace).reverse

/-- Strip markdown fence markers (`/```json\n?/g` then `/```\n?/g`) and trim. -/
def cleanResponse (text : String) : String :=
  String.mk (trimChars (removePat ("```".toList)
    (removePat ("```\n".toList) (removePat ("```json".toList)
      (removePat ("```json\n".toList) text.toList)))))

/-- JS regex `\s` class, modelled by Unicode whitespace. -/
def skipWsJs : List Char → List Char
  | [] => []
  | c :: rest => if c.isWhitespace then skipWsJs rest else c :: rest

/-- Substring matched by the greedy regex `\{[\s\S]*\}`: from the first
opening brace to the last closing brace. -/
def extractBraceSpanChars (cs : List Char) : Option (List Char) :=
  match cs.findIdx? (fun c => c = lbraceC) with
  | none => none
  | some i =>
    match cs.reverse.findIdx? (fun c => c = rbraceC) with
    | none => none
    | some rj =>
      let j := cs.length - 1 - rj
      if i < j then some ((cs.drop i).take (j - i + 1)) else none

mutual

/-- Single left-to-right pass of the regex replace `/,\s*([}\])]/g → $1`
dropping trailing commas before a closing bracket, on a step budget. -/
def stripTCAux : Nat → List Char → List Char
  | 0, cs => cs
  | _, [] => []
  | Nat.succ f, c :: rest =>
    if c = commaC then commaLookaheadAux f rest []
    else c :: stripTCAux f rest

def commaLookaheadAux : Nat → List Char → List Char → List Char
  | 0, cs, wsAcc => commaC :: (wsAcc.reverse ++ cs)
  | _, [], wsAcc => commaC :: wsAcc.reverse
  | Nat.succ f, b :: rest, wsAcc =>
    if b.isWhitespace then commaLookaheadAux f rest (b :: wsAcc)
    else if b = rbraceC || b = rbrackC then b :: stripTCAux f rest
    else commaC :: (wsAcc.reverse ++ stripTCAux f (b :: rest))

end

def stripTrailingCommas (cs : List Char) : List Char :=
  stripTCAux (2 * cs.length + 2) cs

/-- Replace every single quote by a double quote (`/'/g`). -/
def fixQuotes (cs : List Char) : List Char :=
  cs.map (fun c => if c = aposC then quoteC else c)

/-- Keep a parse result only if it is truthy (`if (!data)` falls through
to the next tier on null, false, 0, or the empty string). -/
def truthyOpt (o : Option Jv) : Option Jv :=
  match o with
  | some v => if truthy v then some v else none
  | none => none

/-- Recovery tiers 1-3: direct parse, first-to-last-brace extraction, and
textual repair (drop trailing commas, single to double quotes) followed by
brace extraction.  Returns the first truthy parse. -/
def parseTiers (cleaned : String) : Option Jv :=
  match truthyOpt (jsonParse cleaned) with
  | some v => some v
  | none =>
    match truthyOpt ((extractBraceSpanChars cleaned.toList).bind jsonParseChars) with
    | some v => some v
    | none =>
      let fixed := fixQuotes (stripTrailingCommas cleaned.toList)
      truthyOpt ((extractBraceSpanChars fixed).bind jsonParseChars)

/-! ## Tier 4: field-by-field regex extraction. -/

/-- Suffix after the first occurrence of a literal, if any. -/
def findAfterLit (lit : List Char) : List Char → Option (List Char)
  | [] => if lit.isEmpty then some [] else none
  | c :: rest =>
    match dropLit lit (c :: rest) with
    | some r => some r
    | none => findAfterLit lit rest

def keyPat (key : String) : List Char := quoteC :: key.toList ++ [quoteC]

/-- Match `\s*:\s*"([^"]+)"` right after a key literal. -/
def matchQuotedValue (cs : List Char) : Option String :=
  match skipWsJs cs with
  | [] => none
  | c :: r1 =>
    if c = colonC then
      match skipWsJs r1 with
      | [] => none
      | q :: r3 =>
        if q = quoteC then
          let content := r3.takeWhile (fun ch => !(ch = quoteC))
          match r3.drop content.length with
          | q2 :: _ =>
            if q2 = quoteC && !content.isEmpty then some (String.mk content) else none
          | [] => none
        else none
    else none

/-- Leftmost match of `"key"\s*:\s*"([^"]+)"`, like the tier-4 `extract`. -/
def scanQuotedField (key : String) : List Char → Option String
  | [] => none
  | c :: rest =>
    match dropLit (keyPat key) (c :: rest) with
    | some r =>
      match matchQuotedValue r with
      | some v => some v
      | none => scanQuotedField key rest
    | none => scanQuotedField key rest

/-- Match `\s*:\s*(true|false)` right after a `"visible"` literal. -/
def matchBoolValue (cs : List Char) : Option Bool :=
  match skipWsJs cs with
  | [] => none
  | c :: r1 =>
    if c = colonC then
      match dropLit ("true".toList) (skipWsJs r1) with
      | some _ => some true
      | none =>
        match dropLit ("false".toList) (skipWsJs r1) with
        | some _ => some false
        | none => none
    else none

/-- First `"visible"\s*:\s*(true|false)` in the input. -/
def scanVisibleValue : List Char → Option Bool
  | [] => none
  | c :: rest =>
    match dropLit (keyPat "visible") (c :: rest) with
    | some r =>
      match matchBoolValue r with
      | some b => some b
      | none => scanVisibleValue rest
    | none => scanVisibleValue rest

/-- The tier-4 `extractBool` for one landmark: lazy regex
`"lmKey"[\s\S]*?"visible"\s*:\s*(true|false)`, defaulting to false. -/
def extractVisibleFor (lmKey : String) (cs : List Char) : Bool :=
  match findAfterLit (keyPat lmKey) cs with
  | some r => (scanVisibleValue r).getD false
  | none => false

/-- The `parseFloat` prefix of a `[\d.]+` capture; `none` models NaN. -/
def jsParseFloatRun (run : List Char) : Option Rat :=
  let intDs := run.takeWhile isDigitC
  let r1 := run.drop intDs.length
  let frac := match r1 with
    | c :: rest => if c = '.' then rest.takeWhile isDigitC else []
    | [] => []
  if intDs.isEmpty && frac.isEmpty then none
  else some ((digitsVal (intDs ++ frac) : Rat) / ((10 : Rat) ^ frac.length))

/-- Match `\s*:\s*([\d.]+)` right after a key literal. -/
def matchFloatValue (cs : List Char) : Option (Option Rat) :=
  match skipWsJs cs with
  | [] => none
  | c :: r1 =>
    if c = colonC then
      let r2 := skipWsJs r1
      let run := r2.takeWhile (fun ch => isDigitC ch || ch = '.')
      if run.isEmpty then none else some (jsParseFloatRun run)
    else none

/-- Leftmost match of `"estimated_depth_cm"\s*:\s*([\d.]+)`. -/
def scanFloatField : List Char → Option (Option Rat)
  | [] => none
  | c :: rest =>
    match dropLit (keyPat "estimated_depth_cm") (c :: rest) with
    | some r =>
      match matchFloatValue r with
      | some v => some v
      | none => scanFloatField rest
    | none => scanFloatField rest

/-- Tier 4: regex-extract individual fields as fallback; always yields a
structurally complete record. -/
def tier4 (cleaned : String) : PartialRecord :=
  let cs := cleaned.toList
  { identified_as := none,
    landmarks := some
      { epiglottis := some { visible := extractVisibleFor "epiglottis" cs, confidence := some 0 },
        vocal_cords := some { visible := extractVisibleFor "vocal_cords" cs, confidence := some 0 },
        tracheal_rings := some { visible := extractVisibleFor "tracheal_rings" cs, confidence := some 0 },
        carina := some { visible := extractVisibleFor "carina" cs, confidence := some 0 },
        esophagus := some { visible := extractVisibleFor "esophagus" cs, confidence := some 0 },
        glottis := some { visible := extractVisibleFor "glottis" cs, confidence := some 0 } },
    depth_zone := some ((scanQuotedField "depth_zone" cs).getD "unknown"),
    safety_status := some ((scanQuotedField "safety_status" cs).getD "safe"),
    guidance_message := some ((scanQuotedField "guidance_message" cs).getD "Unable to parse response"),
    estimated_depth_cm :=
      (match scanFloatField cs with
       | none => some 0
       | some o => o),
    image_quality := some ((scanQuotedField "image_quality" cs).getD "poor"),
    success := none }

/-! ## Converting a parsed value into the fields `analyzeFrame` uses. -/

def jvFields : Jv → Option (List (String × Jv))
  | Jv.obj fs => some fs
  | _ => none

def jvStr : Jv → Option String
  | Jv.str s => some s
  | _ => none

/-- JS `ToNumber` on a parsed JSON scalar, `none` for NaN-like results
(arrays and objects are not modelled, their reads never feed a number). -/
def jvToNumOpt : Jv → Option Rat
  | Jv.null => some 0
  | Jv.bool b => some (if b then 1 else 0)
  | Jv.num q => some q
  | Jv.str s =>
    let cs := s.toList
    let t := (skipWsJs cs).reverse
    let t2 := (skipWsJs t).reverse
    if t2.isEmpty then some 0
    else
      match parseNumberJv t2 with
      | some (Jv.num q, []) => some q
      | _ => none
  | Jv.arr _ => none
  | Jv.obj _ => none

def jlookup (fs : List (String × Jv)) (k : String) : Option Jv :=
  fs.lookup k

def jgetStr (fs : List (String × Jv)) (k : String) : Option String :=
  (jlookup fs k).bind jvStr

/-- One landmark observation from its parsed value.  A non-object value
never has a readable `visible`/`confidence`, so it behaves exactly like a
missing observation in every later read. -/
def toObs (j : Jv) : Option LandmarkObs :=
  match jvFields j with
  | some fs =>
    some { visible := ((jlookup fs "visible").map truthy).getD false,
           confidence := (jlookup fs "confidence").bind jvToNumOpt }
  | none => none

def toLandmarks (lfs : List (String × Jv)) : Landmarks :=
  { epiglottis := (jlookup lfs "epiglottis").bind toObs,
    vocal_cords := (jlookup lfs "vocal_cords").bind toObs,
    tracheal_rings := (jlookup lfs "tracheal_rings").bind toObs,
    carina := (jlookup lfs "carina").bind toObs,
    esophagus := (jlookup lfs "esophagus").bind toObs,
    glottis := (jlookup lfs "glottis").bind toObs }

/-- Fields of the parsed `data` value.  An array is a mutable object with
no named fields; a truthy primitive yields `none` because the strict-mode
write `data.estimated_depth_cm = ...` throws a TypeError on it. -/
def toPartialRecord : Jv → Option PartialRecord
  | Jv.obj fs =>
    some { identified_as := jgetStr fs "identified_as",
           landmarks := ((jlookup fs "landmarks").bind jvFields).map toLandmarks,
           depth_zone := jgetStr fs "depth_zone",
           safety_status := jgetStr fs "safety_status",
           guidance_message := jgetStr fs "guidance_message",
           estimated_depth_cm := (jlookup fs "estimated_depth_cm").bind jvToNumOpt,
           image_quality := jgetStr fs "image_quality",
           success := ((jlookup fs "success").map truthy) }
  | Jv.arr _ => some emptyPartial
  | _ => none

/-- The confidence-gate loop reads `data.landmarks[key].confidence` for
every own key; a null member makes that property read throw a TypeError
(skipped when the no-airway blanking already replaced the landmarks). -/
def gateThrows (v : Jv) (d : PartialRecord) : Bool :=
  if d.image_quality = some "no_airway_visible" then false
  else
    match v with
    | Jv.obj fs =>
      match jlookup fs "landmarks" with
      | some (Jv.obj lfs) =>
        lfs.any (fun kv => match kv.2 with | Jv.null => true | _ => false)
      | _ => false
    | _ => false

/-! ## The full `analyzeFrame` result. -/

structure AnalysisResult where
  success : Bool
  identified_as : Option String
  landmarks : Option Landmarks
  depth_zone : Option String
  safety_status : Option String
  guidance_message : Option String
  estimated_depth_cm : Option Rat
  image_quality : Option String
  error : Option String
  timestamp : Int
deriving DecidableEq, Repr

/-- Spread of the normalized data into the success result
(`{ success: true, ...data, timestamp }`). -/
def mkSuccess (d : PartialRecord) (ts : Int) : AnalysisResult :=
  { success := d.success.getD true,
    identified_as := d.identified_as,
    landmarks := d.landmarks,
    depth_zone := d.depth_zone,
    safety_status := d.safety_status,
    guidance_message := d.guidance_message,
    estimated_depth_cm := d.estimated_depth_cm,
    image_quality := d.image_quality,
    error := none,
    timestamp := ts }

/-- The fixed safe-default record returned from the catch block. -/
def failureResult (msg : String) (ts : Int) : AnalysisResult :=
  { success := false,
    identified_as := none,
    landmarks := some
      { epiglottis := some blankObs, vocal_cords := some blankObs,
        tracheal_rings := some blankObs, carina := some blankObs,
        esophagus := some blankObs, glottis := some blankObs },
    depth_zone := some "unknown",
    safety_status := some "safe",
    guidance_message := some "Awaiting camera feed...",
    estimated_depth_cm := some 0,
    image_quality := some "poor",
    error := some msg,
    timestamp := ts }

/-- The whole of `analyzeFrame`, with the external vision call abstracted
as an `Except`: an error is a rejected service call, an ok value is the
raw response text.  Every exception inside the try block lands in the
same catch, producing the fixed default record. -/
def analyzeFrame (call : Except String String) (ts : Int) : AnalysisResult :=
  match call with
  | Except.error msg => failureResult msg ts
  | Except.ok text =>
    let cleaned := cleanResponse text
    match parseTiers cleaned with
    | some v =>
      match toPartialRecord v with
      | none => failureResult "TypeError" ts
      | some d =>
        if gateThrows v d then failureResult "TypeError" ts
        else mkSuccess (normalizeRecord d) ts
    | none => mkSuccess (normalizeRecord (tier4 cleaned)) ts

/-! ## Alert transition engine (`determineAlert`, voiceAlerts.js).

The function is pure; an `Except.error` models the TypeError thrown by the
unguarded reads `curr.landmarks.esophagus` / `curr.landmarks.vocal_cords`
when `curr.landmarks` is absent. -/

def obsVisible (o : Option LandmarkObs) : Bool :=
  (o.map (·.visible)).getD false

def lmVisibleIn (r : AnalysisResult) (sel : Landmarks → Option LandmarkObs) : Bool :=
  ((r.landmarks.bind sel).map (·.visible)).getD false

def prevLmVisible (p : Option AnalysisResult)
    (sel : Landmarks → Option LandmarkObs) : Bool :=
  match p with
  | some r => lmVisibleIn r sel
  | none => false

/-- Image quality rule: fires on transition into `poor`. -/
def poorImageRule (curr : AnalysisResult) (prev : Option AnalysisResult) :
    Option String :=
  if curr.image_quality = some "poor" ∧ (prev.bind (·.image_quality)) ≠ some "poor"
  then some "poor_image" else none

/-- The positive-confirmation rule chain once the previous view and the
current landmarks both exist. -/
def transRulesLm (curr p : AnalysisResult) (lm : Landmarks) :
    Except Unit (Option String) :=
  if obsVisible lm.vocal_cords = true ∧ lmVisibleIn p (·.vocal_cords) = false
  then Except.ok (some "vocal_cords_detected")
  else if obsVisible lm.epiglottis = true ∧ lmVisibleIn p (·.epiglottis) = false
  then Except.ok (some "epiglottis_detected")
  else if curr.depth_zone = some "tracheal" ∧ p.depth_zone ≠ some "tracheal"
  then Except.ok (some "optimal_depth")
  else if curr.depth_zone = some "subglottic" ∧ p.depth_zone = some "glottic"
  then Except.ok (some "entering_trachea")
  else Except.ok (poorImageRule curr (some p))

/-- The positive-confirmation rules guarded by `if (prev)`, then the image
quality rule; reading `curr.landmarks.vocal_cords` throws when the current
landmarks are absent. -/
def transRules (curr : AnalysisResult) (prev : Option AnalysisResult) :
    Except Unit (Option String) :=
  match prev with
  | none => Except.ok (poorImageRule curr prev)
  | some p =>
    match curr.landmarks with
    | none => Except.error ()
    | some lm => transRulesLm curr p lm

/-- Warning rule, then the transition rules. -/
def rulesFromWarning (curr : AnalysisResult) (prev : Option AnalysisResult) :
    Except Unit (Option String) :=
  if curr.safety_status = some "warning" ∧ (prev.bind (·.safety_status)) ≠ some "warning"
  then Except.ok (some "warning_deep")
  else transRules curr prev

/-- The esophageal-transition rule inside the danger block, falling
through to the warning and transition rules. -/
def dangerEsophRule (curr : AnalysisResult) (prev : Option AnalysisResult)
    (lm : Landmarks) : Except Unit (Option String) :=
  if obsVisible lm.esophagus = true ∧ prevLmVisible prev (·.esophagus) = false
  then Except.ok (some "esophageal_warning")
  else rulesFromWarning curr prev

/-- `determineAlert(currentAnalysis, previousAnalysis)` evaluated top to
bottom, first match wins. -/
def determineAlert (curr : AnalysisResult) (prev : Option AnalysisResult) :
    Except Unit (Option String) :=
  if curr.success = false then Except.ok none
  else if curr.safety_status = some "danger" ∧ curr.depth_zone = some "bronchial"
          ∧ (prev.bind (·.depth_zone)) ≠ some "bronchial"
  then Except.ok (some "danger_bronchial")
  else if curr.safety_status = some "danger" then
    match curr.landmarks with
    | none => Except.error ()
    | some lm => dangerEsophRule curr prev lm
  else rulesFromWarning curr prev

/-! ## Temporal stabilization (`getMajority` and the stable state in
`Dashboard.jsx`). -/

/-- Count occurrences per value, keys in first-occurrence order
(`counts[v] = (counts[v] || 0) + 1` on a JS object). -/
def bump : List (String × Nat) → String → List (String × Nat)
  | [], v => [(v, 1)]
  | (k, n) :: rest, v =>
    if k = v then (k, n + 1) :: rest else (k, n) :: bump rest v

def buildCountsAux (acc : List (String × Nat)) : List String → List (String × Nat)
  | [] => acc
  | v :: rest => buildCountsAux (bump acc v) rest

def buildCounts (vals : List String) : List (String × Nat) :=
  buildCountsAux [] vals

/-- `getMajority(arr, key)` with the per-item field values already
extracted; a `none` entry is an item whose field is null or undefined.
`Object.entries` enumerates the count keys in insertion order (true for
every non-array-index key, in particular every zone and status name), and
the stable sort by descending count leaves ties in that order. -/
def getMajority (arr : List (Option String)) : Option String :=
  if arr.isEmpty then none
  else ((sortDesc (fun e => e.2) (buildCounts (arr.filterMap id))).head?).map (·.1)

/-- Specification-side majority: the first value in window order whose
occurrence count is maximal (highest count, ties broken in favor of the
value occurring earliest oldest-to-newest). -/
def majoritySpec (arr : List (Option String)) : Option String :=
  let vals := arr.filterMap id
  vals.find? (fun v => vals.all (fun w => decide (vals.count w ≤ vals.count v)))

/-- A JS canonical array-index key (those enumerate before and break the
insertion-order model of `Object.entries`; no zone or status name is one). -/
def jsArrayIndexKey (s : String) : Bool :=
  match s.toList with
  | [] => false
  | c :: rest =>
    (isDigitC c && rest.all isDigitC)
      && !(c = Char.ofNat 48 && !rest.isEmpty)
      && digitsVal (c :: rest) < 4294967295

/-- JS `a || b` on two optional strings (an empty string is falsy). -/
def jsOrStr (a b : Option String) : Option String :=
  match a with
  | some v => if v = "" then b else some v
  | none => b

/-- Rolling history update `[...historyRef.current.slice(-2), result]`. -/
def pushHistory (h : List AnalysisResult) (r : AnalysisResult) :
    List AnalysisResult :=
  h.drop (h.length - 2) ++ [r]

/-- The stable view built in `runAnalysis`: majority-voted `depth_zone` and
`safety_status`, all other fields from the newest result. -/
def stabilize (history : List AnalysisResult) (result : AnalysisResult) :
    AnalysisResult :=
  { result with
      depth_zone := jsOrStr (getMajority (history.map (·.depth_zone))) result.depth_zone,
      safety_status :=
        jsOrStr (getMajority (history.map (·.safety_status))) result.safety_status }

/-- A minimal successful record carrying a given stable zone, used to
instantiate the stabilization examples. -/
def recWithZone (z : String) : AnalysisResult :=
  { success := true, identified_as := none, landmarks := none,
    depth_zone := some z, safety_status := some "safe",
    guidance_message := none, estimated_depth_cm := none,
    image_quality := some "good", error := none, timestamp := 0 }

/-! ## Audio alert scheduler (`voiceAlerts.js`).

The module state is the pending queue, the advisory busy flag `isPlaying`,
the text-keyed audio cache, and the `currentAudio` slot.  `processQueue`
and `speakUrgent` are `async` functions running on the single JS thread;
each is modelled by its synchronous prefix (up to the first `await`) plus
a continuation resumed by the environment events: successful or failed
synthesis, and playback completion.  Pausing an audio element fires no
`ended` event, so when `speakUrgent` pauses the current audio the paused
drain continuation is never resumed; the state tracks the single live
continuation.  `playLog` records the order in which playbacks started. -/

structure QItem where
  text : String
  priority : Int
deriving DecidableEq, Repr

inductive SchedCont where
  | idle : SchedCont
  | synthDrain : QItem → SchedCont
  | playDrain : QItem → SchedCont
  | synthUrgent : String → SchedCont
  | playUrgent : String → SchedCont
deriving DecidableEq, Repr

structure SchedState where
  audioQueue : List QItem
  isPlaying : Bool
  audioCache : List String
  currentAudio : Option String
  cont : SchedCont
  playLog : List String
deriving DecidableEq, Repr

/-- The static `ALERT_DEFINITIONS` catalog as key to (text, priority). -/
def alertDef (key : String) : Option QItem :=
  if key = "epiglottis_detected" then
    some { text := "Epiglottis detected. Advancing toward vocal cords.", priority := 1 }
  else if key = "vocal_cords_detected" then
    some { text := "Vocal cords detected. Align for insertion.", priority := 2 }
  else if key = "entering_trachea" then
    some { text := "Entering trachea. Advance to optimal depth.", priority := 2 }
  else if key = "tracheal_rings_visible" then
    some { text := "Tracheal rings visible. Tube in trachea.", priority := 1 }
  else if key = "optimal_depth" then
    some { text := "Optimal depth reached. Safe to secure tube.", priority := 3 }
  else if key = "warning_deep" then
    some { text := "Warning. Approaching carina. Do not advance further.", priority := 4 }
  else if key = "danger_bronchial" then
    some { text := "Danger. Bronchial intubation detected. Withdraw immediately.", priority := 5 }
  else if key = "esophageal_warning" then
    some { text := "Warning. Possible esophageal intubation. Verify placement.", priority := 5 }
  else if key = "poor_image" then
    some { text := "Poor image quality. Reposition camera.", priority := 1 }
  else if key = "system_ready" then
    some { text := "NeoGuide active. Camera feed detected.", priority := 1 }
  else if key = "placement_confirmed" then
    some { text := "Tube placement confirmed. Monitoring active.", priority := 3 }
  else none

/-- Synchronous prefix of `processQueue`: return if busy or empty, else set
busy, sort the queue in place by descending priority (stable), shift the
head, and either start cached playback at once or suspend in synthesis. -/
def processQueueStep (s : SchedState) : SchedState :=
  if s.isPlaying || s.audioQueue.isEmpty then s
  else
    match sortDesc (fun i => i.priority) s.audioQueue with
    | [] => s
    | item :: rest =>
      if s.audioCache.contains item.text then
        { s with
            isPlaying := true, audioQueue := rest,
            currentAudio := some item.text,
            playLog := s.playLog ++ [item.text],
            cont := SchedCont.playDrain item }
      else
        { s with
            isPlaying := true, audioQueue := rest,
            cont := SchedCont.synthDrain item }

/-- `speakAlert(alertKey)`: unknown keys are dropped; otherwise push the
item and trigger `processQueue`. -/
def speakAlert (key : String) (s : SchedState) : SchedState :=
  match alertDef key with
  | none => s
  | some item => processQueueStep { s with audioQueue := s.audioQueue ++ [item] }

/-- Synchronous prefix of `speakUrgent(alertKey)`: clear the queue, set
busy, pause any current audio (orphaning a suspended drain playback), then
cached playback starts at once, otherwise suspend in synthesis. -/
def speakUrgentStep (key : String) (s : SchedState) : SchedState :=
  match alertDef key with
  | none => s
  | some a =>
    let s1 := { s with audioQueue := [], isPlaying := true,
                       currentAudio := none, cont := SchedCont.idle }
    if s.audioCache.contains a.text then
      { s1 with
          currentAudio := some a.text,
          playLog := s1.playLog ++ [a.text],
          cont := SchedCont.playUrgent a.text }
    else
      { s1 with cont := SchedCont.synthUrgent a.text }

/-- Resumption on a resolved synthesis call: store the audio in the cache,
then `playAudio` starts the playback. -/
def synthOkStep (s : SchedState) : SchedState :=
  match s.cont with
  | SchedCont.synthDrain item =>
    { s with
        audioCache := s.audioCache ++ [item.text],
        currentAudio := some item.text,
        playLog := s.playLog ++ [item.text],
        cont := SchedCont.playDrain item }
  | SchedCont.synthUrgent t =>
    { s with
        audioCache := s.audioCache ++ [t],
        currentAudio := some t,
        playLog := s.playLog ++ [t],
        cont := SchedCont.playUrgent t }
  | _ => s

/-- Resumption on a rejected synthesis call: the drain logs and moves on to
the next item; the urgent path clears busy and returns without draining. -/
def synthFailStep (s : SchedState) : SchedState :=
  match s.cont with
  | SchedCont.synthDrain _ =>
    processQueueStep { s with isPlaying := false, cont := SchedCont.idle }
  | SchedCont.synthUrgent _ =>
    { s with isPlaying := false, cont := SchedCont.idle }
  | _ => s

/-- Resumption on playback completion (`audio.onended`): release the slot,
clear busy, and drain whatever remains. -/
def playbackEndedStep (s : SchedState) : SchedState :=
  match s.cont with
  | SchedCont.playDrain _ =>
    processQueueStep { s with currentAudio := none, isPlaying := false,
                              cont := SchedCont.idle }
  | SchedCont.playUrgent _ =>
    processQueueStep { s with currentAudio := none, isPlaying := false,
                              cont := SchedCont.idle }
  | _ => s

/-- `stopAllAudio()`: clear the queue, pause current audio, clear busy. -/
def stopAllAudio (s : SchedState) : SchedState :=
  { s with audioQueue := [], currentAudio := none, isPlaying := false,
           cont := SchedCont.idle }

def idleSched : SchedState :=
  { audioQueue := [], isPlaying := false, audioCache := [],
    currentAudio := none, cont := SchedCont.idle, playLog := [] }

/-! ## Concrete instances used by the claim theorems. -/

/-- The six landmark slots of a record, in catalog order. -/
def landmarkList (lm : Landmarks) : List (Option LandmarkObs) :=
  [lm.epiglottis, lm.vocal_cords, lm.tracheal_rings, lm.carina,
   lm.esophagus, lm.glottis]

def lmOnly (sel : LandmarkObs → Landmarks → Landmarks) (o : LandmarkObs) : Landmarks :=
  sel o { epiglottis := none, vocal_cords := none, tracheal_rings := none,
          carina := none, esophagus := none, glottis := none }

/-- A record whose esophagus is reported visible with confidence 0.1,
on a good-quality glottic frame. -/
def c1rec : PartialRecord :=
  { emptyPartial with
      image_quality := some "good",
      safety_status := some "safe",
      depth_zone := some "glottic",
      landmarks := some
        { epiglottis := none, vocal_cords := none, tracheal_rings := none,
          carina := none, esophagus := some { visible := true, confidence := some ratPt1 },
          glottis := none } }

/-- Same frame with a confident esophagus observation. -/
def c1wrec : PartialRecord :=
  { emptyPartial with
      image_quality := some "no_airway_visible",
      safety_status := some "safe",
      depth_zone := some "glottic",
      landmarks := some
        { epiglottis := none, vocal_cords := none, tracheal_rings := none,
          carina := none, esophagus := some { visible := true, confidence := some ratHalf },
          glottis := none } }

def c7rec : PartialRecord :=
  { emptyPartial with
      landmarks := some
        { epiglottis := some { visible := true, confidence := some ratPt1 },
          vocal_cords := none, tracheal_rings := none,
          carina := none, esophagus := none, glottis := none } }

def lmVC (b : Bool) : Landmarks :=
  { epiglottis := none,
    vocal_cords := some { visible := b, confidence := some 1 },
    tracheal_rings := none, carina := none, esophagus := none, glottis := none }

def currVC : AnalysisResult :=
  { recWithZone "glottic" with landmarks := some (lmVC true) }

def prevVC : AnalysisResult :=
  { recWithZone "glottic" with landmarks := some (lmVC false) }

/-- Three alerts with priorities 2, 5, 1 fired in one synchronous burst
from the idle scheduler with an empty cache. -/
def c6burst : SchedState :=
  speakAlert "epiglottis_detected"
    (speakAlert "danger_bronchial" (speakAlert "vocal_cords_detected" idleSched))

def c6final : SchedState :=
  playbackEndedStep (synthOkStep (playbackEndedStep (synthOkStep
    (playbackEndedStep (synthOkStep c6burst)))))

def c6cache : List String :=
  ["Vocal cords detected. Align for insertion.",
   "Danger. Bronchial intubation detected. Withdraw immediately.",
   "Epiglottis detected. Advancing toward vocal cords.",
   "NeoGuide active. Camera feed detected."]

/-- The same three alerts enqueued while a fourth item is playing. -/
def c6busyStart : SchedState :=
  { audioQueue := [], isPlaying := true, audioCache := c6cache,
    currentAudio := some "NeoGuide active. Camera feed detected.",
    cont := SchedCont.playDrain
      { text := "NeoGuide active. Camera feed detected.", priority := 1 },
    playLog := ["NeoGuide active. Camera feed detected."] }

def c6busyFinal : SchedState :=
  playbackEndedStep (playbackEndedStep (playbackEndedStep (playbackEndedStep
    (speakAlert "epiglottis_detected" (speakAlert "danger_bronchial"
      (speakAlert "vocal_cords_detected" c6busyStart))))))

/-- A scheduler busy playing a priority-2 item with two items pending and
the urgent text pre-cached. -/
def c3state : SchedState :=
  { audioQueue := [{ text := "Optimal depth reached. Safe to secure tube.", priority := 3 },
                   { text := "Poor image quality. Reposition camera.", priority := 1 }],
    isPlaying := true,
    audioCache := ["Warning. Possible esophageal intubation. Verify placement."],
    currentAudio := some "Vocal cords detected. Align for insertion.",
    cont := SchedCont.playDrain
      { text := "Vocal cords detected. Align for insertion.", priority := 2 },
    playLog := ["Vocal cords detected. Align for insertion."] }

/-- A carinal-zone record carrying a bogus raw numeric depth. -/
def c8rec : PartialRecord :=
  { emptyPartial with depth_zone := some "carinal", estimated_depth_cm := some 9 }

/-- A scheduler state that is busy playing `it` with `q` pending. -/
def mkBusySched (q : List QItem) (cache : List String) (it : QItem)
    (log : List String) : SchedState :=
  { audioQueue := q, isPlaying := true, audioCache := cache,
    currentAudio := some it.text, cont := SchedCont.playDrain it,
    playLog := log }

/-- Spec-side structural completeness of a returned record ("a record with
all six landmark keys and all required fields populated"): the landmarks
object is present with all six keys defined, and `depth_zone`,
`safety_status`, `guidance_message`, `estimated_depth_cm` and
`image_quality` are all defined. -/
def structComplete (r : AnalysisResult) : Prop :=
  (∃ lm, r.landmarks = some lm
      ∧ lm.epiglottis.isSome = true ∧ lm.vocal_cords.isSome = true
      ∧ lm.tracheal_rings.isSome = true ∧ lm.carina.isSome = true
      ∧ lm.esophagus.isSome = true ∧ lm.glottis.isSome = true)
  ∧ r.depth_zone.isSome = true ∧ r.safety_status.isSome = true
  ∧ r.guidance_message.isSome = true ∧ r.estimated_depth_cm.isSome = true
  ∧ r.image_quality.isSome = true

/-! ## Properties of the stable descending sort. -/

theorem insertDesc_ne_nil {α β : Type} [LinearOrder β] (key : α → β) (x : α)
    (l : List α) : insertDesc key x l ≠ [] := by
  cases l with
  | nil => simp [insertDesc]
  | cons y ys =>
    simp only [insertDesc]
    by_cases h : key y ≤ key x <;> simp [h]

theorem firstMax_eq_none_iff {α β : Type} [LinearOrder β] (key : α → β)
    (l : List α) : firstMax key l = none ↔ l = [] := by
  cases l with
  | nil => simp [firstMax]
  | cons a as =>
    simp only [firstMax]
    rcases firstMax key as with _ | y
    · simp
    · by_cases h : key y ≤ key a <;> simp [h]

theorem sortDesc_head_eq_firstMax {α β : Type} [LinearOrder β] (key : α → β)
    (l : List α) : (sortDesc key l).head? = firstMax key l := by
  induction l with
  | nil => rfl
  | cons x xs ih =>
    show (insertDesc key x (sortDesc key xs)).head? = firstMax key (x :: xs)
    rcases h : sortDesc key xs with _ | ⟨y, ys⟩
    · rw [h] at ih
      simp only [List.head?] at ih
      simp only [firstMax, ← ih]
      simp [insertDesc]
    · rw [h] at ih
      simp only [List.head?] at ih
      simp only [firstMax, ← ih]
      simp only [insertDesc]
      by_cases hc : key y ≤ key x
      · simp [hc]
      · simp [hc]

theorem firstMax_mem {α β : Type} [LinearOrder β] (key : α → β)
    (l : List α) (x : α) (hx : firstMax key l = some x) : x ∈ l := by
  induction l generalizing x with
  | nil => simp [firstMax] at hx
  | cons a as ih =>
    simp only [firstMax] at hx
    rcases h : firstMax key as with _ | y
    · rw [h] at hx
      simp at hx
      simp [hx]
    · rw [h] at hx
      by_cases hc : key y ≤ key a
      · simp [hc] at hx
        simp [hx]
      · simp [hc] at hx
        subst hx
        exact List.mem_cons_of_mem a (ih _ h)

theorem firstMax_le {α β : Type} [LinearOrder β] (key : α → β)
    (l : List α) (x : α) (hx : firstMax key l = some x) :
    ∀ y ∈ l, key y ≤ key x := by
  induction l generalizing x with
  | nil => simp [firstMax] at hx
  | cons a as ih =>
    simp only [firstMax] at hx
    rcases h : firstMax key as with _ | y
    · rw [h] at hx
      simp at hx
      have has : as = [] := (firstMax_eq_none_iff key as).mp h
      subst has
      simp [hx]
    · rw [h] at hx
      by_cases hc : key y ≤ key a
      · simp [hc] at hx
        subst hx
        intro z hz
        rcases List.mem_cons.mp hz with hz | hz
        · exact hz ▸ le_refl _
        · exact le_trans (ih y h z hz) hc
      · simp [hc] at hx
        subst hx
        intro z hz
        rcases List.mem_cons.mp hz with hz | hz
        · exact hz ▸ le_of_not_le hc
        · exact ih _ h z hz

theorem find?_congr_mem {α : Type} (p q : α → Bool) (l : List α)
    (h : ∀ x ∈ l, p x = q x) : l.find? p = l.find? q := by
  induction l with
  | nil => rfl
  | cons a as ih =>
    have ha : p a = q a := h a (List.mem_cons_self a as)
    rw [List.find?_cons, List.find?_cons, ha]
    cases hq : q a
    · simp only []
      exact ih (fun x hx => h x (List.mem_cons_of_mem a hx))
    · rfl

theorem firstMax_eq_find? {α β : Type} [LinearOrder β] (key : α → β)
    (l : List α) :
    firstMax key l = l.find? (fun y => l.all (fun z => decide (key z ≤ key y))) := by
  induction l with
  | nil => rfl
  | cons x xs ih =>
    rcases h : firstMax key xs with _ | y
    · have hxs : xs = [] := (firstMax_eq_none_iff key xs).mp h
      subst hxs
      simp [firstMax, List.find?]
    · have hy_mem := firstMax_mem key xs y h
      have hy_le := firstMax_le key xs y h
      by_cases hc : key y ≤ key x
      · have hpx : ((x :: xs).all (fun z => decide (key z ≤ key x))) = true := by
          rw [List.all_eq_true]
          intro z hz
          rcases List.mem_cons.mp hz with hz | hz
          · simp [hz]
          · simpa using le_trans (hy_le z hz) hc
        rw [List.find?_cons, hpx]
        simp only [firstMax, h, hc, if_true]
      · have hpx : ((x :: xs).all (fun z => decide (key z ≤ key x))) = false := by
          rw [List.all_eq_false]
          exact ⟨y, List.mem_cons_of_mem x hy_mem, by simpa using hc⟩
        rw [List.find?_cons, hpx]
        simp only [firstMax, h, hc, if_false]
        have hcongr :
            xs.find? (fun z => ((x :: xs).all (fun w => decide (key w ≤ key z))))
              = xs.find? (fun z => (xs.all (fun w => decide (key w ≤ key z)))) := by
          apply find?_congr_mem
          intro z hz
          rcases hall : (xs.all (fun w => decide (key w ≤ key z))) with _ | _
          · rw [List.all_eq_false] at hall
            rcases hall with ⟨w, hw, hwz⟩
            rw [List.all_eq_false]
            exact ⟨w, List.mem_cons_of_mem x hw, hwz⟩
          · rw [List.all_eq_true] at hall
            rw [List.all_eq_true]
            intro w hw
            rcases List.mem_cons.mp hw with hw | hw
            · subst hw
              have hxy : key w < key y := lt_of_not_le hc
              have hyz : key y ≤ key z := by simpa using hall y hy_mem
              simpa using le_of_lt (lt_of_lt_of_le hxy hyz)
            · exact hall w hw
        rw [hcongr, ← ih, h]

/-! ## Properties of the occurrence-count table. -/

theorem buildCountsAux_cons (v : String) :
    ∀ (l : List String) (acc : List (String × Nat)) (n : Nat),
      buildCountsAux ((v, n) :: acc) l
        = (v, n + l.count v) :: buildCountsAux acc (l.filter (fun w => !(w == v)))
  | [], acc, n => by simp [buildCountsAux]
  | w :: rest, acc, n => by
    by_cases hw : v = w
    · subst hw
      simp only [buildCountsAux, bump, if_true]
      rw [buildCountsAux_cons v rest acc (n + 1)]
      simp only [List.count_cons_self, List.filter_cons]
      simp [Nat.add_assoc, Nat.add_comm 1]
    · have hw' : ¬ w = v := fun h => hw h.symm
      simp only [buildCountsAux, bump, if_neg hw]
      rw [buildCountsAux_cons v rest (bump acc w) n]
      have hcnt : (w :: rest).count v = rest.count v :=
        List.count_cons_of_ne (fun h => hw h) rest
      rw [hcnt]
      simp only [List.filter_cons]
      have : (!(w == v)) = true := by simp [hw']
      rw [this]
      simp only [buildCountsAux]

theorem buildCounts_cons (v : String) (l : List String) :
    buildCounts (v :: l)
      = (v, (v :: l).count v) :: buildCounts (l.filter (fun w => !(w == v))) := by
  show buildCountsAux (bump [] v) l = _
  simp only [bump]
  rw [buildCountsAux_cons]
  rw [List.count_cons_self, Nat.add_comm]
  rfl

theorem buildCounts_eq_nil (l : List String) : buildCounts l = [] ↔ l = [] := by
  cases l with
  | nil => simp [buildCounts, buildCountsAux]
  | cons v rest => rw [buildCounts_cons]; simp

theorem bc_entry_mem : ∀ (n : Nat) (l : List String), l.length ≤ n →
    ∀ e ∈ buildCounts l, e.1 ∈ l ∧ e.2 = l.count e.1 := by
  intro n
  induction n with
  | zero =>
    intro l hl e he
    have hnil : l = [] := List.eq_nil_of_length_eq_zero (Nat.le_zero.mp hl)
    subst hnil
    simp [buildCounts, buildCountsAux] at he
  | succ n ih =>
    intro l hl e he
    cases l with
    | nil => simp [buildCounts, buildCountsAux] at he
    | cons v rest =>
      rw [buildCounts_cons] at he
      rcases List.mem_cons.mp he with he | he
      · subst he; simp
      · have hlf : (rest.filter (fun w => !(w == v))).length ≤ n := by
          have h1 := List.length_filter_le (fun w => !(w == v)) rest
          simp only [List.length_cons] at hl
          omega
        obtain ⟨h1, h2⟩ := ih _ hlf e he
        have hmem := List.mem_filter.mp h1
        have hne : e.1 ≠ v := by simpa using hmem.2
        refine ⟨List.mem_cons_of_mem v hmem.1, ?_⟩
        rw [h2, List.count_filter (by simpa using hne),
          List.count_cons_of_ne hne]

theorem bc_mem_of_mem : ∀ (n : Nat) (l : List String), l.length ≤ n →
    ∀ w ∈ l, (w, l.count w) ∈ buildCounts l := by
  intro n
  induction n with
  | zero =>
    intro l hl w hw
    have hnil : l = [] := List.eq_nil_of_length_eq_zero (Nat.le_zero.mp hl)
    subst hnil
    simp at hw
  | succ n ih =>
    intro l hl w hw
    cases l with
    | nil => simp at hw
    | cons v rest =>
      rw [buildCounts_cons]
      by_cases hwv : w = v
      · subst hwv
        exact List.mem_cons_self _ _
      · have hwr : w ∈ rest := by
          rcases List.mem_cons.mp hw with h | h
          · exact absurd h hwv
          · exact h
        have hwf : w ∈ rest.filter (fun u => !(u == v)) :=
          List.mem_filter.mpr ⟨hwr, by simpa using hwv⟩
        have hlf : (rest.filter (fun u => !(u == v))).length ≤ n := by
          have h1 := List.length_filter_le (fun u => !(u == v)) rest
          simp only [List.length_cons] at hl
          omega
        have hmem := ih _ hlf w hwf
        have hcnt : (rest.filter (fun u => !(u == v))).count w = (v :: rest).count w := by
          rw [List.count_filter (by simpa using hwv), List.count_cons_of_ne hwv]
        rw [hcnt] at hmem
        exact List.mem_cons_of_mem _ hmem

theorem find?_filter_eq {α : Type} (p q : α → Bool) (l : List α)
    (h : ∀ x ∈ l, q x = false → p x = false) :
    (l.filter q).find? p = l.find? p := by
  induction l with
  | nil => rfl
  | cons a as ih =>
    have ih' := ih (fun x hx => h x (List.mem_cons_of_mem a hx))
    rw [List.filter_cons]
    cases hq : q a
    · rw [if_neg (by simp)]
      rw [List.find?_cons, h a (List.mem_cons_self a as) hq]
      exact ih'
    · rw [if_pos (by simp)]
      rw [List.find?_cons, List.find?_cons]
      cases p a
      · exact ih'
      · rfl

theorem firstMax_cons_eq_none {α β : Type} [LinearOrder β] (key : α → β)
    (x : α) (xs : List α) (h : firstMax key xs = none) :
    firstMax key (x :: xs) = some x := by
  simp [firstMax, h]

theorem firstMax_cons_eq_some {α β : Type} [LinearOrder β] (key : α → β)
    (x y : α) (xs : List α) (h : firstMax key xs = some y) :
    firstMax key (x :: xs) = if key y ≤ key x then some x else some y := by
  simp [firstMax, h]

theorem bc_firstMax_eq_find : ∀ (n : Nat) (vals : List String),
    vals.length ≤ n →
    (firstMax (fun e : String × Nat => e.2) (buildCounts vals)).map (·.1)
      = vals.find? (fun v => vals.all (fun w => decide (vals.count w ≤ vals.count v))) := by
  intro n
  induction n with
  | zero =>
    intro vals h
    have hnil : vals = [] := List.eq_nil_of_length_eq_zero (Nat.le_zero.mp h)
    subst hnil
    rfl
  | succ n ih =>
    intro vals hlen
    cases vals with
    | nil => rfl
    | cons v l =>
      have hlf : (l.filter (fun w => !(w == v))).length ≤ n := by
        have h1 := List.length_filter_le (fun w => !(w == v)) l
        simp only [List.length_cons] at hlen
        omega
      have hcnt : ∀ u : String, u ≠ v →
          (v :: l).count u = (l.filter (fun w => !(w == v))).count u := by
        intro u hu
        rw [List.count_cons_of_ne hu]
        exact (List.count_filter (by simpa using hu)).symm
      rw [buildCounts_cons]
      rcases hfm : firstMax (fun e : String × Nat => e.2)
          (buildCounts (l.filter (fun w => !(w == v)))) with _ | e
      · rw [firstMax_cons_eq_none _ _ _ hfm]
        have hbc := (firstMax_eq_none_iff (fun e : String × Nat => e.2) _).mp hfm
        have hl' : l.filter (fun w => !(w == v)) = [] := (buildCounts_eq_nil _).mp hbc
        have hall : ∀ w ∈ l, w = v := by
          intro w hw
          by_contra hne
          have hmem : w ∈ l.filter (fun u => !(u == v)) :=
            List.mem_filter.mpr ⟨hw, by simpa using hne⟩
          rw [hl'] at hmem
          simp at hmem
        have hpred : ((v :: l).all
            (fun w => decide ((v :: l).count w ≤ (v :: l).count v))) = true := by
          rw [List.all_eq_true]
          intro w hw
          rcases List.mem_cons.mp hw with h | h
          · subst h; simp
          · rw [hall w h]; simp
        rw [List.find?_cons_of_pos _ (by simpa using hpred)]
        rfl
      · have hemem := firstMax_mem (fun e : String × Nat => e.2) _ e hfm
        obtain ⟨he1, he2⟩ := bc_entry_mem n _ hlf e hemem
        have hmax := firstMax_le (fun e : String × Nat => e.2) _ e hfm
        have hne : e.1 ≠ v := by
          have hmf := List.mem_filter.mp he1
          simpa using hmf.2
        have hcnt_e : (v :: l).count e.1 = e.2 := by
          rw [hcnt e.1 hne, ← he2]
        rw [firstMax_cons_eq_some _ _ _ _ hfm]
        by_cases hle : e.2 ≤ (v :: l).count v
        · rw [if_pos hle]
          have hpred : ((v :: l).all
              (fun w => decide ((v :: l).count w ≤ (v :: l).count v))) = true := by
            rw [List.all_eq_true]
            intro w hw
            by_cases hwv : w = v
            · subst hwv; simp
            · have hwl : w ∈ l := by
                rcases List.mem_cons.mp hw with h | h
                · exact absurd h hwv
                · exact h
              have hwf : w ∈ l.filter (fun u => !(u == v)) :=
                List.mem_filter.mpr ⟨hwl, by simpa using hwv⟩
              have hwbc := bc_mem_of_mem n _ hlf w hwf
              have hwle := hmax _ hwbc
              simp only [] at hwle
              rw [hcnt w hwv]
              simpa using le_trans hwle hle
          rw [List.find?_cons_of_pos _ (by simpa using hpred)]
          rfl
        · rw [if_neg hle]
          have hclt : (v :: l).count v < e.2 := Nat.lt_of_not_le hle
          have hnotle : ¬ ((v :: l).count e.1 ≤ (v :: l).count v) := by
            rw [hcnt_e]
            exact hle
          have hpredv : ((v :: l).all
              (fun w => decide ((v :: l).count w ≤ (v :: l).count v))) = false := by
            rw [List.all_eq_false]
            exact ⟨e.1, List.mem_cons_of_mem v (List.mem_filter.mp he1).1,
              by simpa using hnotle⟩
          rw [List.find?_cons_of_neg _ (by simpa using hpredv)]
          have hfilter :
              l.find? (fun w =>
                  (v :: l).all (fun u => decide ((v :: l).count u ≤ (v :: l).count w)))
                = (l.filter (fun w => !(w == v))).find? (fun w =>
                  (v :: l).all (fun u => decide ((v :: l).count u ≤ (v :: l).count w))) := by
            refine (find?_filter_eq _ _ _ ?_).symm
            intro x hx hq
            have hxv : x = v := by simpa using hq
            subst hxv
            exact hpredv
          have hcongr :
              (l.filter (fun w => !(w == v))).find? (fun w =>
                  (v :: l).all (fun u => decide ((v :: l).count u ≤ (v :: l).count w)))
                = (l.filter (fun w => !(w == v))).find? (fun w =>
                  (l.filter (fun u => !(u == v))).all (fun u =>
                    decide ((l.filter (fun u' => !(u' == v))).count u
                      ≤ (l.filter (fun u' => !(u' == v))).count w))) := by
            apply find?_congr_mem
            intro w hwf
            have hwv : w ≠ v := by simpa using (List.mem_filter.mp hwf).2
            rw [Bool.eq_iff_iff, List.all_eq_true, List.all_eq_true]
            constructor
            · intro hA u huf
              have huv : u ≠ v := by simpa using (List.mem_filter.mp huf).2
              have hul : u ∈ v :: l :=
                List.mem_cons_of_mem v (List.mem_filter.mp huf).1
              have hAu := hA u hul
              rw [← hcnt u huv, ← hcnt w hwv]
              simpa using hAu
            · intro hB u hul
              by_cases huv : u = v
              · rw [huv]
                have hee := hB e.1 he1
                have h1 : (l.filter (fun u' => !(u' == v))).count e.1
                    ≤ (l.filter (fun u' => !(u' == v))).count w := by simpa using hee
                rw [← he2] at h1
                rw [hcnt w hwv]
                simpa using le_of_lt (Nat.lt_of_lt_of_le hclt h1)
              · have hulist : u ∈ l := by
                  rcases List.mem_cons.mp hul with h | h
                  · exact absurd h huv
                  · exact h
                have huf : u ∈ l.filter (fun u' => !(u' == v)) :=
                  List.mem_filter.mpr ⟨hulist, by simpa using huv⟩
                have hBu := hB u huf
                rw [hcnt u huv, hcnt w hwv]
                simpa using hBu
          rw [hfilter, hcongr, ← ih _ hlf, hfm]

theorem getMajority_eq_majoritySpec (arr : List (Option String)) :
    getMajority arr = majoritySpec arr := by
  unfold getMajority majoritySpec
  by_cases h : arr.isEmpty
  · rw [if_pos h]
    have harr : arr = [] := List.isEmpty_iff.mp h
    subst harr
    rfl
  · rw [if_neg h]
    rw [sortDesc_head_eq_firstMax]
    exact bc_firstMax_eq_find (arr.filterMap id).length _ (le_refl _)

/-! ## Shape lemmas about the normalization pipeline. -/

theorem ratPt3_eq : ratPt3 = 3 / 10 := by
  rw [← Rat.num_div_den ratPt3]
  norm_num [ratPt3]

theorem ratPt1_eq : ratPt1 = 1 / 10 := by
  rw [← Rat.num_div_den ratPt1]
  norm_num [ratPt1]

theorem ratHalf_eq : ratHalf = 1 / 2 := by
  rw [← Rat.num_div_den ratHalf]
  norm_num [ratHalf]

theorem esophagusEscalation_landmarks (d : PartialRecord) :
    (esophagusEscalation d).landmarks = d.landmarks := by
  unfold esophagusEscalation
  by_cases h : esophagusVisible d = true
  · rw [if_pos h]
  · rw [if_neg h]

theorem esophagusEscalation_depth_cm (d : PartialRecord) :
    (esophagusEscalation d).estimated_depth_cm = d.estimated_depth_cm := by
  unfold esophagusEscalation
  by_cases h : esophagusVisible d = true
  · rw [if_pos h]
  · rw [if_neg h]

theorem depthLookup_landmarks (d : PartialRecord) :
    (depthLookup d).landmarks = d.landmarks := rfl

theorem depthLookup_depth_zone (d : PartialRecord) :
    (depthLookup d).depth_zone = d.depth_zone := rfl

theorem confidenceGate_depth_zone (d : PartialRecord) :
    (confidenceGate d).depth_zone = d.depth_zone := by
  unfold confidenceGate
  cases d.landmarks <;> rfl

theorem confidenceGate_image_quality (d : PartialRecord) :
    (confidenceGate d).image_quality = d.image_quality := by
  unfold confidenceGate
  cases d.landmarks <;> rfl

theorem gateObs_confidence (o : LandmarkObs) :
    (gateObs o).confidence = o.confidence := by
  rcases h : o.confidence with _ | q
  · simp [gateObs, h]
  · by_cases hq : q < ratPt3
    · simp [gateObs, h, hq]
    · simp [gateObs, h, hq]

theorem gateObs_low_conf (o : LandmarkObs) (q : Rat)
    (hc : (gateObs o).confidence = some q) (hq : q < ratPt3) :
    (gateObs o).visible = false := by
  rw [gateObs_confidence] at hc
  simp [gateObs, hc, hq]

/-- The gate keeps a visible observation visible when its confidence is
missing or not below the threshold. -/
theorem gateObs_keeps_visible (o : LandmarkObs) (hv : o.visible = true)
    (hq : ∀ q : Rat, o.confidence = some q → ¬ q < 3 / 10) :
    (gateObs o).visible = true := by
  rcases h : o.confidence with _ | q
  · simp [gateObs, h, hv]
  · have hnq : ¬ q < ratPt3 := by
      rw [ratPt3_eq]
      exact hq q h
    simp [gateObs, h, hnq, hv]

/-- The esophagus observation survives the no-airway blanking unchanged
whenever it is present in the input. -/
theorem noAirwayBlank_esophagus (d : PartialRecord) (o : LandmarkObs)
    (h : d.landmarks.bind (·.esophagus) = some o) :
    (noAirwayBlank d).landmarks.bind (·.esophagus) = some o := by
  unfold noAirwayBlank
  by_cases hq : d.image_quality = some "no_airway_visible"
  · rw [if_pos hq]
    simp [h]
  · rw [if_neg hq]
    exact h

theorem confidenceGate_esophagus (d : PartialRecord) :
    (confidenceGate d).landmarks.bind (·.esophagus)
      = (d.landmarks.bind (·.esophagus)).map gateObs := by
  rcases h : d.landmarks with _ | lm
  · simp [confidenceGate, h]
  · rcases he : lm.esophagus with _ | o
    · simp [confidenceGate, h, he]
    · simp [confidenceGate, h, he]

/-! ## Claim theorems. -/

/-- C9: whenever the external vision-service call fails, `analyzeFrame`
returns the fixed default record instead of propagating the error:
`success = false`, all six landmarks `{visible:false, confidence:0}`,
`depth_zone = unknown`, `safety_status = safe`, the fixed waiting-state
guidance message, `estimated_depth_cm = 0` and `image_quality = poor`. -/
theorem claim_C9 (msg : String) (ts : Int) :
    (analyzeFrame (Except.error msg) ts).success = false
    ∧ (analyzeFrame (Except.error msg) ts).landmarks = some
        { epiglottis := some blankObs, vocal_cords := some blankObs,
          tracheal_rings := some blankObs, carina := some blankObs,
          esophagus := some blankObs, glottis := some blankObs }
    ∧ (analyzeFrame (Except.error msg) ts).depth_zone = some "unknown"
    ∧ (analyzeFrame (Except.error msg) ts).safety_status = some "safe"
    ∧ (analyzeFrame (Except.error msg) ts).guidance_message
        = some "Awaiting camera feed..."
    ∧ (analyzeFrame (Except.error msg) ts).estimated_depth_cm = some 0
    ∧ (analyzeFrame (Except.error msg) ts).image_quality = some "poor"
    ∧ blankObs.visible = false ∧ blankObs.confidence = some 0 :=
  ⟨rfl, rfl, rfl, rfl, rfl, rfl, rfl, rfl, rfl⟩

/-- C10: a failed-analysis frame can never produce an alert — for every
current view with `success = false`, `determineAlert` returns none,
whatever the other fields of the view and whatever the previous view. -/
theorem claim_C10 (curr : AnalysisResult) (prev : Option AnalysisResult)
    (h : curr.success = false) :
    determineAlert curr prev = Except.ok none := by
  unfold determineAlert
  rw [if_pos h]

/-- Witness for C10 at the fixed failure record. -/
theorem claim_C10_witness :
    determineAlert (failureResult "network error" 0) none = Except.ok none :=
  claim_C10 (failureResult "network error" 0) none rfl

/-- C4: stabilization returns, for each voted field, the value with the
highest occurrence count over the current history window, ties broken in
favor of the value occurring earliest in window order (the executable
specification `majoritySpec`); and the two concrete history examples both
stabilize to `glottic`. -/
theorem claim_C4 :
    (∀ arr : List (Option String),
        (∀ v : String, some v ∈ arr → jsArrayIndexKey v = false) →
        getMajority arr = majoritySpec arr)
    ∧ (stabilize [recWithZone "glottic", recWithZone "glottic", recWithZone "subglottic"]
        (recWithZone "subglottic")).depth_zone = some "glottic"
    ∧ (stabilize [recWithZone "glottic", recWithZone "subglottic"]
        (recWithZone "subglottic")).depth_zone = some "glottic" :=
  ⟨fun arr _ => getMajority_eq_majoritySpec arr, rfl, rfl⟩

/-- Witness for C4 on the tied two-element window. -/
theorem claim_C4_witness :
    getMajority [some "glottic", some "subglottic"]
      = majoritySpec [some "glottic", some "subglottic"] :=
  claim_C4.1 [some "glottic", some "subglottic"] (by
    intro v hv
    simp at hv
    rcases hv with h | h <;> subst h <;> decide)

/-- C6 counterexample: priorities [2, 5, 1] enqueued in one burst from the
idle scheduler, before any of them has started playing (the log is still
empty after the three enqueues), drain in the order 2, 5, 1 — not 5, 2, 1:
the first enqueue's drain step already claimed the priority-2 item. -/
theorem claim_C6_counterexample :
    c6burst.playLog = []
    ∧ c6final.playLog =
        ["Vocal cords detected. Align for insertion.",
         "Danger. Bronchial intubation detected. Withdraw immediately.",
         "Epiglottis detected. Advancing toward vocal cords."]
    ∧ c6final.playLog ≠
        ["Danger. Bronchial intubation detected. Withdraw immediately.",
         "Vocal cords detected. Align for insertion.",
         "Epiglottis detected. Advancing toward vocal cords."]
    ∧ c6final.audioQueue = [] ∧ c6final.isPlaying = false :=
  ⟨rfl, rfl, by decide, rfl, rfl⟩

/-- C6 amended: each drain step selects the highest-priority item pending
at selection time, ties broken in favor of the earliest enqueued; when the
three items [2, 5, 1] are enqueued while another item is playing they are
drained 5, 2, 1 after it finishes, but when they are enqueued from idle
the first enqueue immediately claims its own item, so they play 2, 5, 1. -/
theorem claim_C6 :
    (∀ q : List QItem,
        (sortDesc (fun i => i.priority) q).head?
          = q.find? (fun i => q.all (fun j => decide (j.priority ≤ i.priority))))
    ∧ c6busyFinal.playLog =
        ["NeoGuide active. Camera feed detected.",
         "Danger. Bronchial intubation detected. Withdraw immediately.",
         "Vocal cords detected. Align for insertion.",
         "Epiglottis detected. Advancing toward vocal cords."]
    ∧ c6busyFinal.audioQueue = [] ∧ c6busyFinal.isPlaying = false
    ∧ c6final.playLog =
        ["Vocal cords detected. Align for insertion.",
         "Danger. Bronchial intubation detected. Withdraw immediately.",
         "Epiglottis detected. Advancing toward vocal cords."] :=
  ⟨fun q => by rw [sortDesc_head_eq_firstMax, firstMax_eq_find?],
   rfl, rfl, rfl, rfl⟩

/-- C1 counterexample: a record whose esophagus is reported visible but
with confidence 0.1 (below the 0.3 gate) is not escalated — normalization
leaves `safety_status = safe` and `depth_zone = glottic`, refuting the
claim that any input with `esophagus.visible == true` yields danger. -/
theorem claim_C1_counterexample :
    (c1rec.landmarks.bind (·.esophagus)).map (·.visible) = some true
    ∧ c1rec.image_quality = some "good"
    ∧ (normalizeRecord c1rec).safety_status = some "safe"
    ∧ (normalizeRecord c1rec).safety_status ≠ some "danger"
    ∧ (normalizeRecord c1rec).depth_zone = some "glottic" :=
  ⟨rfl, rfl, rfl, by decide, rfl⟩

/-- C1 amended: for every input record whose esophagus landmark is visible
and survives the confidence gate (its confidence, when present, is not
below 0.3), normalization yields `safety_status = danger`,
`depth_zone = unknown` and the fixed critical-escalation message,
regardless of the incoming `image_quality`. -/
theorem claim_C1 (d : PartialRecord) (o : LandmarkObs)
    (h : d.landmarks.bind (·.esophagus) = some o)
    (hv : o.visible = true)
    (hq : ∀ q : Rat, o.confidence = some q → ¬ q < 3 / 10) :
    (normalizeRecord d).safety_status = some "danger"
    ∧ (normalizeRecord d).depth_zone = some "unknown"
    ∧ (normalizeRecord d).guidance_message
        = some "ESOPHAGEAL INTUBATION DETECTED — withdraw tube immediately and reposition." := by
  have h1 := noAirwayBlank_esophagus d o h
  have h2 : (confidenceGate (noAirwayBlank d)).landmarks.bind (·.esophagus)
      = some (gateObs o) := by
    rw [confidenceGate_esophagus, h1]
    rfl
  have h3 : esophagusVisible (depthLookup (confidenceGate (noAirwayBlank d))) = true := by
    unfold esophagusVisible
    rw [depthLookup_landmarks, h2]
    simpa using gateObs_keeps_visible o hv hq
  unfold normalizeRecord esophagusEscalation
  rw [if_pos h3]
  exact ⟨rfl, rfl, rfl⟩

/-- Witness for C1 at a no-airway-quality frame with a confident
esophagus observation. -/
theorem claim_C1_witness :
    (normalizeRecord c1wrec).safety_status = some "danger"
    ∧ (normalizeRecord c1wrec).depth_zone = some "unknown"
    ∧ (normalizeRecord c1wrec).guidance_message
        = some "ESOPHAGEAL INTUBATION DETECTED — withdraw tube immediately and reposition." :=
  claim_C1 c1wrec { visible := true, confidence := some ratHalf } rfl rfl
    (fun q hq => by
      simp only [Option.some.injEq] at hq
      subst hq
      rw [ratHalf_eq]
      norm_num)

theorem gated_entry_low (x : Option LandmarkObs) (o : LandmarkObs) (q : Rat)
    (h : x.map gateObs = some o) (hconf : o.confidence = some q)
    (hq : q < ratPt3) : o.visible = false := by
  rcases Option.map_eq_some'.mp h with ⟨o₀, _, ho⟩
  subst ho
  exact gateObs_low_conf o₀ q hconf hq

/-- C7: after normalization, every landmark present in the record whose
confidence is below 0.3 has `visible = false`; and the confidence gate
leaves the confidence value itself unchanged. -/
theorem claim_C7 :
    (∀ (d : PartialRecord) (lm : Landmarks) (o : LandmarkObs) (q : Rat),
        (normalizeRecord d).landmarks = some lm →
        some o ∈ landmarkList lm →
        o.confidence = some q → q < 3 / 10 → o.visible = false)
    ∧ (∀ o : LandmarkObs, (gateObs o).confidence = o.confidence) := by
  constructor
  · intro d lm o q hlm hmem hconf hq
    rw [← ratPt3_eq] at hq
    have h1 : (normalizeRecord d).landmarks
        = (confidenceGate (noAirwayBlank d)).landmarks := by
      unfold normalizeRecord
      rw [esophagusEscalation_landmarks, depthLookup_landmarks]
    rw [h1] at hlm
    rcases hx : (noAirwayBlank d).landmarks with _ | lm0
    · simp [confidenceGate, hx] at hlm
    · simp only [confidenceGate, hx, Option.some.injEq] at hlm
      subst hlm
      simp only [landmarkList, List.mem_cons, List.mem_singleton,
        List.not_mem_nil, or_false] at hmem
      rcases hmem with h | h | h | h | h | h
      all_goals exact gated_entry_low _ o q h.symm hconf hq
  · exact gateObs_confidence

/-- Witness for C7 at a record with a low-confidence epiglottis. -/
theorem claim_C7_witness :
    ({ visible := false, confidence := some ratPt1 } : LandmarkObs).visible = false :=
  claim_C7.1 c7rec
    { epiglottis := some { visible := false, confidence := some ratPt1 },
      vocal_cords := none, tracheal_rings := none,
      carina := none, esophagus := none, glottis := none }
    { visible := false, confidence := some ratPt1 } ratPt1
    rfl (by simp [landmarkList]) rfl
    (by rw [ratPt1_eq]; norm_num)

theorem noAirwayBlank_depth_zone_est (d : PartialRecord) (q : Option Rat) :
    (noAirwayBlank { d with estimated_depth_cm := q }).depth_zone
      = (noAirwayBlank d).depth_zone := by
  unfold noAirwayBlank
  by_cases h : d.image_quality = some "no_airway_visible"
  · rw [if_pos h, if_pos h]
  · rw [if_neg h, if_neg h]

/-- The estimated depth produced by normalization is always the table
value of the depth zone as it stands after blanking and gating. -/
theorem normalizeRecord_est (d : PartialRecord) :
    (normalizeRecord d).estimated_depth_cm
      = some ((((confidenceGate (noAirwayBlank d)).depth_zone).bind ZONE_DEPTH_CM).getD 0) := by
  unfold normalizeRecord
  rw [esophagusEscalation_depth_cm]
  rfl

theorem normalizeRecord_est_zone (d : PartialRecord) (z : String)
    (hz : (normalizeRecord d).depth_zone = some z) (hne : z ≠ "unknown") :
    (normalizeRecord d).estimated_depth_cm = some ((ZONE_DEPTH_CM z).getD 0) := by
  rw [normalizeRecord_est]
  unfold normalizeRecord esophagusEscalation at hz
  by_cases he : esophagusVisible (depthLookup (confidenceGate (noAirwayBlank d))) = true
  · rw [if_pos he] at hz
    simp at hz
    exact absurd hz.symm hne
  · rw [if_neg he] at hz
    rw [depthLookup_depth_zone] at hz
    rw [hz]
    rfl

/-- C8: a normalized record whose depth zone is carinal always carries
estimated depth exactly 3.5 cm; the estimated depth is independent of any
raw numeric depth in the input; and it always comes from the fixed
`ZONE_DEPTH_CM` table keyed by the (possibly defaulted) depth zone. -/
theorem claim_C8 :
    (∀ d : PartialRecord, (normalizeRecord d).depth_zone = some "carinal" →
        (normalizeRecord d).estimated_depth_cm = some (7 / 2))
    ∧ (∀ (d : PartialRecord) (q : Option Rat),
        (normalizeRecord { d with estimated_depth_cm := q }).estimated_depth_cm
          = (normalizeRecord d).estimated_depth_cm)
    ∧ (∀ d : PartialRecord, (normalizeRecord d).estimated_depth_cm
        = some ((((confidenceGate (noAirwayBlank d)).depth_zone).bind ZONE_DEPTH_CM).getD 0))
    ∧ (∀ (d : PartialRecord) (z : String), (normalizeRecord d).depth_zone = some z →
        z ≠ "unknown" →
        (normalizeRecord d).estimated_depth_cm = some ((ZONE_DEPTH_CM z).getD 0)) := by
  refine ⟨?_, ?_, normalizeRecord_est, normalizeRecord_est_zone⟩
  · intro d h
    rw [normalizeRecord_est_zone d "carinal" h (by decide)]
    rfl
  · intro d q
    rw [normalizeRecord_est, normalizeRecord_est, confidenceGate_depth_zone,
      confidenceGate_depth_zone, noAirwayBlank_depth_zone_est]

/-- Witness for C8 at a carinal record with a bogus raw depth of 9. -/
theorem claim_C8_witness :
    (normalizeRecord c8rec).estimated_depth_cm = some (7 / 2)
    ∧ (normalizeRecord { emptyPartial with estimated_depth_cm := some ratPt1 }).estimated_depth_cm
        = (normalizeRecord emptyPartial).estimated_depth_cm
    ∧ (normalizeRecord c8rec).estimated_depth_cm = some ((ZONE_DEPTH_CM "carinal").getD 0) :=
  ⟨claim_C8.1 c8rec rfl,
   claim_C8.2.1 emptyPartial (some ratPt1),
   claim_C8.2.2.2 c8rec "carinal" rfl (by decide)⟩

/-- C3: calling `urgent(k)` with a known key while an item is playing and
others are pending stops the current playback at once (the urgent text
replaces it in the playing slot), empties the pending queue, plays the
urgent message (from the cache, or after a successful synthesis), and
after its playback completes the scheduler is idle: empty queue, busy flag
cleared, nothing playing. -/
theorem claim_C3 :
    (∀ (k : String) (a it : QItem) (q : List QItem) (cache log : List String),
        alertDef k = some a → q ≠ [] → cache.contains a.text = true →
        (speakUrgentStep k (mkBusySched q cache it log)).audioQueue = []
        ∧ (speakUrgentStep k (mkBusySched q cache it log)).isPlaying = true
        ∧ (speakUrgentStep k (mkBusySched q cache it log)).currentAudio = some a.text
        ∧ (speakUrgentStep k (mkBusySched q cache it log)).playLog = log ++ [a.text]
        ∧ (playbackEndedStep (speakUrgentStep k (mkBusySched q cache it log))).audioQueue = []
        ∧ (playbackEndedStep (speakUrgentStep k (mkBusySched q cache it log))).isPlaying = false
        ∧ (playbackEndedStep (speakUrgentStep k (mkBusySched q cache it log))).cont
            = SchedCont.idle
        ∧ (playbackEndedStep (speakUrgentStep k (mkBusySched q cache it log))).currentAudio
            = none)
    ∧ (∀ (k : String) (a it : QItem) (q : List QItem) (cache log : List String),
        alertDef k = some a → q ≠ [] → cache.contains a.text = false →
        (speakUrgentStep k (mkBusySched q cache it log)).audioQueue = []
        ∧ (speakUrgentStep k (mkBusySched q cache it log)).isPlaying = true
        ∧ (speakUrgentStep k (mkBusySched q cache it log)).currentAudio = none
        ∧ (speakUrgentStep k (mkBusySched q cache it log)).cont
            = SchedCont.synthUrgent a.text
        ∧ (synthOkStep (speakUrgentStep k (mkBusySched q cache it log))).currentAudio
            = some a.text
        ∧ (synthOkStep (speakUrgentStep k (mkBusySched q cache it log))).playLog
            = log ++ [a.text]
        ∧ (playbackEndedStep (synthOkStep
            (speakUrgentStep k (mkBusySched q cache it log)))).audioQueue = []
        ∧ (playbackEndedStep (synthOkStep
            (speakUrgentStep k (mkBusySched q cache it log)))).isPlaying = false
        ∧ (playbackEndedStep (synthOkStep
            (speakUrgentStep k (mkBusySched q cache it log)))).cont = SchedCont.idle) := by
  constructor
  · intro k a it q cache log hk _ hcache
    have hmem : a.text ∈ cache := by simpa using hcache
    simp [speakUrgentStep, hk, hmem, mkBusySched, playbackEndedStep,
      processQueueStep]
  · intro k a it q cache log hk _ hcache
    have hmem : a.text ∉ cache := by simpa using hcache
    simp [speakUrgentStep, hk, hmem, mkBusySched, synthOkStep,
      playbackEndedStep, processQueueStep]

/-- Witness for C3: urgent esophageal warning preempting a playing
priority-2 item with two pending items and the urgent text cached. -/
theorem claim_C3_witness :
    (speakUrgentStep "esophageal_warning" (mkBusySched
        [{ text := "Optimal depth reached. Safe to secure tube.", priority := 3 },
         { text := "Poor image quality. Reposition camera.", priority := 1 }]
        ["Warning. Possible esophageal intubation. Verify placement."]
        { text := "Vocal cords detected. Align for insertion.", priority := 2 }
        ["Vocal cords detected. Align for insertion."])).audioQueue = []
    ∧ (speakUrgentStep "esophageal_warning" (mkBusySched
        [{ text := "Optimal depth reached. Safe to secure tube.", priority := 3 },
         { text := "Poor image quality. Reposition camera.", priority := 1 }]
        ["Warning. Possible esophageal intubation. Verify placement."]
        { text := "Vocal cords detected. Align for insertion.", priority := 2 }
        ["Vocal cords detected. Align for insertion."])).isPlaying = true
    ∧ (speakUrgentStep "esophageal_warning" (mkBusySched
        [{ text := "Optimal depth reached. Safe to secure tube.", priority := 3 },
         { text := "Poor image quality. Reposition camera.", priority := 1 }]
        ["Warning. Possible esophageal intubation. Verify placement."]
        { text := "Vocal cords detected. Align for insertion.", priority := 2 }
        ["Vocal cords detected. Align for insertion."])).currentAudio
      = some "Warning. Possible esophageal intubation. Verify placement."
    ∧ (speakUrgentStep "esophageal_warning" (mkBusySched
        [{ text := "Optimal depth reached. Safe to secure tube.", priority := 3 },
         { text := "Poor image quality. Reposition camera.", priority := 1 }]
        ["Warning. Possible esophageal intubation. Verify placement."]
        { text := "Vocal cords detected. Align for insertion.", priority := 2 }
        ["Vocal cords detected. Align for insertion."])).playLog
      = ["Vocal cords detected. Align for insertion.",
         "Warning. Possible esophageal intubation. Verify placement."]
    ∧ (playbackEndedStep (speakUrgentStep "esophageal_warning" (mkBusySched
        [{ text := "Optimal depth reached. Safe to secure tube.", priority := 3 },
         { text := "Poor image quality. Reposition camera.", priority := 1 }]
        ["Warning. Possible esophageal intubation. Verify placement."]
        { text := "Vocal cords detected. Align for insertion.", priority := 2 }
        ["Vocal cords detected. Align for insertion."]))).audioQueue = []
    ∧ (playbackEndedStep (speakUrgentStep "esophageal_warning" (mkBusySched
        [{ text := "Optimal depth reached. Safe to secure tube.", priority := 3 },
         { text := "Poor image quality. Reposition camera.", priority := 1 }]
        ["Warning. Possible esophageal intubation. Verify placement."]
        { text := "Vocal cords detected. Align for insertion.", priority := 2 }
        ["Vocal cords detected. Align for insertion."]))).isPlaying = false
    ∧ (playbackEndedStep (speakUrgentStep "esophageal_warning" (mkBusySched
        [{ text := "Optimal depth reached. Safe to secure tube.", priority := 3 },
         { text := "Poor image quality. Reposition camera.", priority := 1 }]
        ["Warning. Possible esophageal intubation. Verify placement."]
        { text := "Vocal cords detected. Align for insertion.", priority := 2 }
        ["Vocal cords detected. Align for insertion."]))).cont = SchedCont.idle
    ∧ (playbackEndedStep (speakUrgentStep "esophageal_warning" (mkBusySched
        [{ text := "Optimal depth reached. Safe to secure tube.", priority := 3 },
         { text := "Poor image quality. Reposition camera.", priority := 1 }]
        ["Warning. Possible esophageal intubation. Verify placement."]
        { text := "Vocal cords detected. Align for insertion.", priority := 2 }
        ["Vocal cords detected. Align for insertion."]))).currentAudio = none :=
  claim_C3.1 "esophageal_warning"
    { text := "Warning. Possible esophageal intubation. Verify placement.", priority := 5 }
    { text := "Vocal cords detected. Align for insertion.", priority := 2 }
    [{ text := "Optimal depth reached. Safe to secure tube.", priority := 3 },
     { text := "Poor image quality. Reposition camera.", priority := 1 }]
    ["Warning. Possible esophageal intubation. Verify placement."]
    ["Vocal cords detected. Align for insertion."]
    rfl (by decide) rfl

/-! ## Equation lemmas for the alert rule chain. -/

/-- The warning rule fires when its transition condition holds. -/
theorem rfw_warning (curr : AnalysisResult) (prev : Option AnalysisResult)
    (hw : curr.safety_status = some "warning"
      ∧ (prev.bind (·.safety_status)) ≠ some "warning") :
    rulesFromWarning curr prev = Except.ok (some "warning_deep") := by
  unfold rulesFromWarning
  rw [if_pos hw]

/-- When the warning transition does not hold, control falls through to the
positive-confirmation rules. -/
theorem rfw_not (curr : AnalysisResult) (prev : Option AnalysisResult)
    (hw : ¬ (curr.safety_status = some "warning"
      ∧ (prev.bind (·.safety_status)) ≠ some "warning")) :
    rulesFromWarning curr prev = transRules curr prev := by
  unfold rulesFromWarning
  rw [if_neg hw]

/-- Without a previous analysis only the image-quality rule remains. -/
theorem transRules_none (curr : AnalysisResult) :
    transRules curr none = Except.ok (poorImageRule curr none) := rfl

/-- With a previous analysis but absent current landmarks, the unguarded
read of `curr.landmarks.vocal_cords` throws. -/
theorem transRules_some_none (curr p : AnalysisResult)
    (h : curr.landmarks = none) :
    transRules curr (some p) = Except.error () := by
  unfold transRules
  rw [h]

/-- With a previous analysis and present landmarks the confirmation chain
runs. -/
theorem transRules_some_some (curr p : AnalysisResult) (lm : Landmarks)
    (h : curr.landmarks = some lm) :
    transRules curr (some p) = transRulesLm curr p lm := by
  unfold transRules
  rw [h]

/-- A failed analysis yields no alert. -/
theorem detAlert_fail (curr : AnalysisResult) (prev : Option AnalysisResult)
    (h : curr.success = false) :
    determineAlert curr prev = Except.ok none := by
  unfold determineAlert
  rw [if_pos h]

/-- Visibility lookup through a present landmarks object. -/
theorem lmVisibleIn_eq (r : AnalysisResult) (lm : Landmarks)
    (h : r.landmarks = some lm) (sel : Landmarks → Option LandmarkObs) :
    lmVisibleIn r sel = obsVisible (sel lm) := by
  unfold lmVisibleIn obsVisible
  rw [h]
  rfl

/-- If the warning-then-confirmation chain answers `vocal_cords_detected`,
then a previous analysis exists, the current vocal cords are visible, the
previous ones were not, and the warning transition did not hold. -/
theorem rfw_vc (curr : AnalysisResult) (prev : Option AnalysisResult)
    (h : rulesFromWarning curr prev = Except.ok (some "vocal_cords_detected")) :
    prev.isSome = true
    ∧ lmVisibleIn curr (·.vocal_cords) = true
    ∧ prevLmVisible prev (·.vocal_cords) = false
    ∧ ¬ (curr.safety_status = some "warning"
          ∧ (prev.bind (·.safety_status)) ≠ some "warning") := by
  by_cases hw : curr.safety_status = some "warning"
      ∧ (prev.bind (·.safety_status)) ≠ some "warning"
  · rw [rfw_warning curr prev hw] at h
    exact absurd (Except.ok.inj h) (by decide)
  · rw [rfw_not curr prev hw] at h
    rcases prev with _ | p
    · rw [transRules_none curr] at h
      have h2 := Except.ok.inj h
      unfold poorImageRule at h2
      by_cases hpi : curr.image_quality = some "poor"
          ∧ (((none : Option AnalysisResult)).bind (·.image_quality)) ≠ some "poor"
      · rw [if_pos hpi] at h2
        exact absurd h2 (by decide)
      · rw [if_neg hpi] at h2
        exact absurd h2 (by decide)
    · rcases hlm : curr.landmarks with _ | lm
      · rw [transRules_some_none curr p hlm] at h
        exact Except.noConfusion h
      · rw [transRules_some_some curr p lm hlm] at h
        unfold transRulesLm at h
        by_cases hvc : obsVisible lm.vocal_cords = true
            ∧ lmVisibleIn p (·.vocal_cords) = false
        · refine ⟨rfl, ?_, hvc.2, hw⟩
          rw [lmVisibleIn_eq curr lm hlm]
          exact hvc.1
        · rw [if_neg hvc] at h
          by_cases hep : obsVisible lm.epiglottis = true
              ∧ lmVisibleIn p (·.epiglottis) = false
          · rw [if_pos hep] at h
            exact absurd (Except.ok.inj h) (by decide)
          rw [if_neg hep] at h
          by_cases htr : curr.depth_zone = some "tracheal"
              ∧ p.depth_zone ≠ some "tracheal"
          · rw [if_pos htr] at h
            exact absurd (Except.ok.inj h) (by decide)
          rw [if_neg htr] at h
          by_cases hsg : curr.depth_zone = some "subglottic"
              ∧ p.depth_zone = some "glottic"
          · rw [if_pos hsg] at h
            exact absurd (Except.ok.inj h) (by decide)
          rw [if_neg hsg] at h
          have h2 := Except.ok.inj h
          unfold poorImageRule at h2
          by_cases hpi : curr.image_quality = some "poor"
              ∧ (((some p : Option AnalysisResult)).bind (·.image_quality)) ≠ some "poor"
          · rw [if_pos hpi] at h2
            exact absurd h2 (by decide)
          · rw [if_neg hpi] at h2
            exact absurd h2 (by decide)

/-- C5 (counterexample): `determineAlert` is a pure function of its two
arguments, so a second consecutive call with the same `curr`/`prev` pair
returns `vocal_cords_detected` again, not `none`: on the concrete
vocal-cord transition pair every call returns
`some "vocal_cords_detected"`, which differs from `none`. -/
theorem claim_C5_counterexample :
    determineAlert currVC (some prevVC) = Except.ok (some "vocal_cords_detected")
    ∧ determineAlert currVC (some prevVC) ≠ Except.ok none := by
  constructor
  · rfl
  · intro hcon
    rw [show determineAlert currVC (some prevVC)
        = Except.ok (some "vocal_cords_detected") from rfl] at hcon
    exact absurd (Except.ok.inj hcon) (by decide)

/-- C5 (amended): `determineAlert` returns `vocal_cords_detected` only when
a previous analysis exists, the current vocal cords are visible, the
previous ones were not, and none of the higher-priority rules (bronchial
danger transition, esophageal transition, warning transition) matched.
Being pure, the function cannot distinguish a "second consecutive call";
the repeat suppression actually implemented is that once the previous
analysis has been updated to the current one, no rule fires:
`determineAlert c (some c)` is `ok none` for every record with landmarks
present. -/
theorem claim_C5 :
    (∀ (curr : AnalysisResult) (prev : Option AnalysisResult),
        determineAlert curr prev = Except.ok (some "vocal_cords_detected") →
        prev.isSome = true
        ∧ lmVisibleIn curr (·.vocal_cords) = true
        ∧ prevLmVisible prev (·.vocal_cords) = false
        ∧ ¬ (curr.safety_status = some "danger" ∧ curr.depth_zone = some "bronchial"
              ∧ (prev.bind (·.depth_zone)) ≠ some "bronchial")
        ∧ ¬ (curr.safety_status = some "danger" ∧ lmVisibleIn curr (·.esophagus) = true
              ∧ prevLmVisible prev (·.esophagus) = false)
        ∧ ¬ (curr.safety_status = some "warning"
              ∧ (prev.bind (·.safety_status)) ≠ some "warning"))
    ∧ (∀ c : AnalysisResult, c.landmarks.isSome = true →
        determineAlert c (some c) = Except.ok none) := by
  constructor
  · intro curr prev h
    by_cases hs : curr.success = false
    · rw [detAlert_fail curr prev hs] at h
      exact absurd (Except.ok.inj h) (by decide)
    by_cases h1 : curr.safety_status = some "danger" ∧ curr.depth_zone = some "bronchial"
        ∧ (prev.bind (·.depth_zone)) ≠ some "bronchial"
    · unfold determineAlert at h
      rw [if_neg hs, if_pos h1] at h
      exact absurd (Except.ok.inj h) (by decide)
    by_cases h2 : curr.safety_status = some "danger"
    · rcases hlm : curr.landmarks with _ | lm
      · unfold determineAlert at h
        rw [if_neg hs, if_neg h1, if_pos h2, hlm] at h
        have h' : (Except.error () : Except Unit (Option String))
            = Except.ok (some "vocal_cords_detected") := h
        exact Except.noConfusion h'
      · unfold determineAlert at h
        rw [if_neg hs, if_neg h1, if_pos h2, hlm] at h
        have h' : dangerEsophRule curr prev lm
            = Except.ok (some "vocal_cords_detected") := h
        unfold dangerEsophRule at h'
        by_cases h3 : obsVisible lm.esophagus = true
            ∧ prevLmVisible prev (·.esophagus) = false
        · rw [if_pos h3] at h'
          exact absurd (Except.ok.inj h') (by decide)
        · rw [if_neg h3] at h'
          have main := rfw_vc curr prev h'
          refine ⟨main.1, main.2.1, main.2.2.1, h1, ?_, main.2.2.2⟩
          rintro ⟨-, ha, hb⟩
          refine h3 ⟨?_, hb⟩
          rw [← lmVisibleIn_eq curr lm hlm]
          exact ha
    · have hda : determineAlert curr prev = rulesFromWarning curr prev := by
        unfold determineAlert
        rw [if_neg hs, if_neg h1, if_neg h2]
      rw [hda] at h
      have main := rfw_vc curr prev h
      refine ⟨main.1, main.2.1, main.2.2.1, h1, ?_, main.2.2.2⟩
      rintro ⟨hd, -, -⟩
      exact h2 hd
  · intro c hc
    rcases hlm : c.landmarks with _ | lm
    · rw [hlm] at hc
      exact absurd hc (by decide)
    by_cases hs : c.success = false
    · exact detAlert_fail c (some c) hs
    have h1 : ¬ (c.safety_status = some "danger" ∧ c.depth_zone = some "bronchial"
        ∧ (((some c : Option AnalysisResult)).bind (·.depth_zone)) ≠ some "bronchial") := by
      rintro ⟨-, hz, hnz⟩
      exact hnz hz
    have hw : ¬ (c.safety_status = some "warning"
        ∧ (((some c : Option AnalysisResult)).bind (·.safety_status)) ≠ some "warning") := by
      rintro ⟨hsw, hnsw⟩
      exact hnsw hsw
    have hvcn : ¬ (obsVisible lm.vocal_cords = true
        ∧ lmVisibleIn c (·.vocal_cords) = false) := by
      rintro ⟨ha, hb⟩
      rw [lmVisibleIn_eq c lm hlm, ha] at hb
      exact absurd hb (by decide)
    have hepn : ¬ (obsVisible lm.epiglottis = true
        ∧ lmVisibleIn c (·.epiglottis) = false) := by
      rintro ⟨ha, hb⟩
      rw [lmVisibleIn_eq c lm hlm, ha] at hb
      exact absurd hb (by decide)
    have htrn : ¬ (c.depth_zone = some "tracheal"
        ∧ c.depth_zone ≠ some "tracheal") := by
      rintro ⟨ha, hb⟩
      exact hb ha
    have hsgn : ¬ (c.depth_zone = some "subglottic"
        ∧ c.depth_zone = some "glottic") := by
      rintro ⟨ha, hb⟩
      rw [ha] at hb
      exact absurd hb (by decide)
    have hpin : ¬ (c.image_quality = some "poor"
        ∧ (((some c : Option AnalysisResult)).bind (·.image_quality)) ≠ some "poor") := by
      rintro ⟨ha, hb⟩
      exact hb ha
    have hrw : rulesFromWarning c (some c) = Except.ok none := by
      rw [rfw_not c (some c) hw, transRules_some_some c c lm hlm]
      unfold transRulesLm
      rw [if_neg hvcn, if_neg hepn, if_neg htrn, if_neg hsgn]
      unfold poorImageRule
      rw [if_neg hpin]
    by_cases h2 : c.safety_status = some "danger"
    · have hda : determineAlert c (some c) = dangerEsophRule c (some c) lm := by
        unfold determineAlert
        rw [if_neg hs, if_neg h1, if_pos h2, hlm]
      rw [hda]
      unfold dangerEsophRule
      have h3 : ¬ (obsVisible lm.esophagus = true
          ∧ prevLmVisible (some c) (·.esophagus) = false) := by
        rintro ⟨ha, hb⟩
        have hb' : lmVisibleIn c (·.esophagus) = false := hb
        rw [lmVisibleIn_eq c lm hlm, ha] at hb'
        exact absurd hb' (by decide)
      rw [if_neg h3]
      exact hrw
    · have hda : determineAlert c (some c) = rulesFromWarning c (some c) := by
        unfold determineAlert
        rw [if_neg hs, if_neg h1, if_neg h2]
      rw [hda]
      exact hrw

/-- C5 witness: the amended statement evaluated on the concrete vocal-cord
transition pair, whose alert is `vocal_cords_detected`, and on the repeated
pair `(currVC, some currVC)`, which yields no alert. -/
theorem claim_C5_witness :
    ((some prevVC : Option AnalysisResult).isSome = true
      ∧ lmVisibleIn currVC (·.vocal_cords) = true
      ∧ prevLmVisible (some prevVC) (·.vocal_cords) = false
      ∧ ¬ (currVC.safety_status = some "danger" ∧ currVC.depth_zone = some "bronchial"
            ∧ ((some prevVC : Option AnalysisResult).bind (·.depth_zone)) ≠ some "bronchial")
      ∧ ¬ (currVC.safety_status = some "danger" ∧ lmVisibleIn currVC (·.esophagus) = true
            ∧ prevLmVisible (some prevVC) (·.esophagus) = false)
      ∧ ¬ (currVC.safety_status = some "warning"
            ∧ ((some prevVC : Option AnalysisResult).bind (·.safety_status)) ≠ some "warning"))
    ∧ determineAlert currVC (some currVC) = Except.ok none :=
  ⟨claim_C5.1 currVC (some prevVC) rfl, claim_C5.2 currVC rfl⟩

/-! ## Structural completeness through the parse and normalization
pipeline. -/

/-- Mapping a function over a present option keeps it present. -/
theorem isSome_map {α β : Type} (f : α → β) (o : Option α)
    (h : o.isSome = true) : (o.map f).isSome = true := by
  rcases o with _ | x
  · simp at h
  · rfl

/-- The confidence gate on a record with a present landmarks object. -/
theorem confidenceGate_some (d : PartialRecord) (lm : Landmarks)
    (h : d.landmarks = some lm) :
    confidenceGate d = { d with landmarks := some {
        epiglottis := lm.epiglottis.map gateObs,
        vocal_cords := lm.vocal_cords.map gateObs,
        tracheal_rings := lm.tracheal_rings.map gateObs,
        carina := lm.carina.map gateObs,
        esophagus := lm.esophagus.map gateObs,
        glottis := lm.glottis.map gateObs } } := by
  unfold confidenceGate
  rw [h]

/-- The escalation keeps `depth_zone` defined. -/
theorem esophEsc_dz_isSome (d : PartialRecord)
    (h : d.depth_zone.isSome = true) :
    (esophagusEscalation d).depth_zone.isSome = true := by
  unfold esophagusEscalation
  by_cases he : esophagusVisible d = true
  · rw [if_pos he]
    rfl
  · rw [if_neg he]
    exact h

/-- The escalation keeps `safety_status` defined. -/
theorem esophEsc_ss_isSome (d : PartialRecord)
    (h : d.safety_status.isSome = true) :
    (esophagusEscalation d).safety_status.isSome = true := by
  unfold esophagusEscalation
  by_cases he : esophagusVisible d = true
  · rw [if_pos he]
    rfl
  · rw [if_neg he]
    exact h

/-- The escalation keeps `guidance_message` defined. -/
theorem esophEsc_gm_isSome (d : PartialRecord)
    (h : d.guidance_message.isSome = true) :
    (esophagusEscalation d).guidance_message.isSome = true := by
  unfold esophagusEscalation
  by_cases he : esophagusVisible d = true
  · rw [if_pos he]
    rfl
  · rw [if_neg he]
    exact h

/-- The escalation never touches `image_quality`. -/
theorem esophEsc_iq (d : PartialRecord) :
    (esophagusEscalation d).image_quality = d.image_quality := by
  unfold esophagusEscalation
  by_cases he : esophagusVisible d = true
  · rw [if_pos he]
  · rw [if_neg he]

/-- When every recovery tier fails, `analyzeFrame` builds its record from
the tier-4 field extraction. -/
theorem analyzeFrame_tier4 (text : String) (ts : Int)
    (h : parseTiers (cleanResponse text) = none) :
    analyzeFrame (Except.ok text) ts
      = mkSuccess (normalizeRecord (tier4 (cleanResponse text))) ts := by
  simp only [analyzeFrame, h]

/-- Normalization and the success spread preserve structural
completeness. -/
theorem mkSuccess_norm_complete (d : PartialRecord) (ts : Int)
    (hlm : ∃ lm, d.landmarks = some lm
        ∧ lm.epiglottis.isSome = true ∧ lm.vocal_cords.isSome = true
        ∧ lm.tracheal_rings.isSome = true ∧ lm.carina.isSome = true
        ∧ lm.esophagus.isSome = true ∧ lm.glottis.isSome = true)
    (hdz : d.depth_zone.isSome = true)
    (hss : d.safety_status.isSome = true)
    (hgm : d.guidance_message.isSome = true)
    (hiq : d.image_quality.isSome = true) :
    structComplete (mkSuccess (normalizeRecord d) ts) := by
  obtain ⟨lm0, hlm0, he1, he2, he3, he4, he5, he6⟩ := hlm
  have h1 : ∃ lm, (noAirwayBlank d).landmarks = some lm
      ∧ lm.epiglottis.isSome = true ∧ lm.vocal_cords.isSome = true
      ∧ lm.tracheal_rings.isSome = true ∧ lm.carina.isSome = true
      ∧ lm.esophagus.isSome = true ∧ lm.glottis.isSome = true := by
    unfold noAirwayBlank
    by_cases hna : d.image_quality = some "no_airway_visible"
    · rw [if_pos hna]
      exact ⟨_, rfl, rfl, rfl, rfl, rfl, rfl, rfl⟩
    · rw [if_neg hna]
      exact ⟨lm0, hlm0, he1, he2, he3, he4, he5, he6⟩
  have h1dz : (noAirwayBlank d).depth_zone.isSome = true := by
    unfold noAirwayBlank
    by_cases hna : d.image_quality = some "no_airway_visible"
    · rw [if_pos hna]
      rfl
    · rw [if_neg hna]
      exact hdz
  have h1ss : (noAirwayBlank d).safety_status.isSome = true := by
    unfold noAirwayBlank
    by_cases hna : d.image_quality = some "no_airway_visible"
    · rw [if_pos hna]
      rfl
    · rw [if_neg hna]
      exact hss
  have h1gm : (noAirwayBlank d).guidance_message.isSome = true := by
    unfold noAirwayBlank
    by_cases hna : d.image_quality = some "no_airway_visible"
    · rw [if_pos hna]
      exact hgm
    · rw [if_neg hna]
      exact hgm
  have h1iq : (noAirwayBlank d).image_quality.isSome = true := by
    unfold noAirwayBlank
    by_cases hna : d.image_quality = some "no_airway_visible"
    · rw [if_pos hna]
      exact hiq
    · rw [if_neg hna]
      exact hiq
  obtain ⟨lm1, hlm1, g1, g2, g3, g4, g5, g6⟩ := h1
  have hcg := confidenceGate_some (noAirwayBlank d) lm1 hlm1
  have hTlm :
      (esophagusEscalation (depthLookup (confidenceGate (noAirwayBlank d)))).landmarks
      = some { epiglottis := lm1.epiglottis.map gateObs,
               vocal_cords := lm1.vocal_cords.map gateObs,
               tracheal_rings := lm1.tracheal_rings.map gateObs,
               carina := lm1.carina.map gateObs,
               esophagus := lm1.esophagus.map gateObs,
               glottis := lm1.glottis.map gateObs } := by
    rw [esophagusEscalation_landmarks, depthLookup_landmarks, hcg]
  have hTdz :
      (esophagusEscalation (depthLookup (confidenceGate (noAirwayBlank d)))).depth_zone.isSome
      = true := by
    apply esophEsc_dz_isSome
    rw [hcg]
    exact h1dz
  have hTss :
      (esophagusEscalation (depthLookup (confidenceGate (noAirwayBlank d)))).safety_status.isSome
      = true := by
    apply esophEsc_ss_isSome
    rw [hcg]
    exact h1ss
  have hTgm :
      (esophagusEscalation (depthLookup (confidenceGate (noAirwayBlank d)))).guidance_message.isSome
      = true := by
    apply esophEsc_gm_isSome
    rw [hcg]
    exact h1gm
  have hTest :
      (esophagusEscalation (depthLookup (confidenceGate (noAirwayBlank d)))).estimated_depth_cm.isSome
      = true := by
    rw [esophagusEscalation_depth_cm]
    rfl
  have hTiq :
      (esophagusEscalation (depthLookup (confidenceGate (noAirwayBlank d)))).image_quality.isSome
      = true := by
    rw [esophEsc_iq]
    rw [hcg]
    exact h1iq
  exact ⟨⟨_, hTlm, isSome_map _ _ g1, isSome_map _ _ g2, isSome_map _ _ g3,
      isSome_map _ _ g4, isSome_map _ _ g5, isSome_map _ _ g6⟩,
    hTdz, hTss, hTgm, hTest, hTiq⟩

/-- C2 (counterexample): on the well-formed response `{"a": 1}` the direct
parse (tier 1) succeeds, so no recovery defaults are ever applied: the
returned record has no landmarks object at all and `depth_zone`,
`safety_status`, `guidance_message` and `image_quality` all undefined, so
it is not structurally complete. -/
theorem claim_C2_counterexample :
    (analyzeFrame (Except.ok "\x7b\"a\": 1\x7d") 0).landmarks = none
    ∧ (analyzeFrame (Except.ok "\x7b\"a\": 1\x7d") 0).depth_zone = none
    ∧ (analyzeFrame (Except.ok "\x7b\"a\": 1\x7d") 0).safety_status = none
    ∧ (analyzeFrame (Except.ok "\x7b\"a\": 1\x7d") 0).guidance_message = none
    ∧ (analyzeFrame (Except.ok "\x7b\"a\": 1\x7d") 0).image_quality = none
    ∧ ¬ structComplete (analyzeFrame (Except.ok "\x7b\"a\": 1\x7d") 0) := by
  refine ⟨rfl, rfl, rfl, rfl, rfl, ?_⟩
  rintro ⟨⟨lm, hlm, -⟩, -⟩
  rw [show (analyzeFrame (Except.ok "\x7b\"a\": 1\x7d") 0).landmarks = none from rfl] at hlm
  exact Option.noConfusion hlm

/-- C2 (amended): the documented defaults are applied only when every
structural recovery tier fails and the tier-4 field extraction runs: in
that case the returned record is structurally complete, and on an input
without any recoverable field (such as `hello`) it carries exactly the
documented defaults.  When a structural tier succeeds, whatever object it
produced is used as-is, missing keys included. -/
theorem claim_C2 :
    (∀ (text : String) (ts : Int),
        parseTiers (cleanResponse text) = none →
        structComplete (analyzeFrame (Except.ok text) ts))
    ∧ (analyzeFrame (Except.ok "hello") 0).depth_zone = some "unknown"
    ∧ (analyzeFrame (Except.ok "hello") 0).safety_status = some "safe"
    ∧ (analyzeFrame (Except.ok "hello") 0).guidance_message
        = some "Unable to parse response"
    ∧ (analyzeFrame (Except.ok "hello") 0).image_quality = some "poor"
    ∧ (analyzeFrame (Except.ok "hello") 0).estimated_depth_cm = some 0
    ∧ (analyzeFrame (Except.ok "hello") 0).landmarks = some {
        epiglottis := some blankObs, vocal_cords := some blankObs,
        tracheal_rings := some blankObs, carina := some blankObs,
        esophagus := some blankObs, glottis := some blankObs }
    ∧ (analyzeFrame (Except.ok "hello") 0).success = true := by
  refine ⟨?_, rfl, rfl, rfl, rfl, rfl, rfl, rfl⟩
  intro text ts h
  rw [analyzeFrame_tier4 text ts h]
  exact mkSuccess_norm_complete (tier4 (cleanResponse text)) ts
    ⟨_, rfl, rfl, rfl, rfl, rfl, rfl, rfl⟩ rfl rfl rfl rfl

/-- C2 witness: on the unparseable response `hello` every structural tier
fails and the tier-4 record is structurally complete. -/
theorem claim_C2_witness :
    parseTiers (cleanResponse "hello") = none
    ∧ structComplete (analyzeFrame (Except.ok "hello") 0) :=
  ⟨rfl, claim_C2.1 "hello" 0 rfl⟩
